import Mathlib

/-
  Verification development for the ecology123 predator-prey simulation.

  The definitions below are a shallow embedding of the TypeScript engine:
  - JavaScript numbers that carry fractional values (energy, density, random
    draws, rates) are modelled as rationals (ℚ); counters (age, hunger, tick)
    as naturals; grid coordinates as integers (movement can produce negative
    candidate coordinates before the bounds check).
  - `Math.random()` results are passed in explicitly, either as single draws
    or as a stream (`List ℚ`) consumed head-first.
  - In-place mutation of organisms that are aliased from grid cells is
    modelled by reading the organism from its cell, applying the update, and
    writing it back to the cell.
  Source files: src/simulation/engine/World.ts, StepProcessor.ts (the
  revision with species-specific cell deletes), ReproductionProcessor.ts,
  analysis/EcologicalAnalyzer.ts, config/WorldConfig.ts.
-/

namespace Eco

/-- Death causes recorded in the death ledger (DeathRecord.cause). -/
inductive Cause
  | age
  | starvation
  | hunger
  | grazing
  | hunting
  deriving DecidableEq, Repr

/-- Fields of an organism used by `StepProcessor.processDeaths` (the
TypeScript function is generic over `{ isAlive, age, energy, hunger, x, y }`;
the `id` is used for the death record). -/
structure Mortal where
  id : String
  x : Int
  y : Int
  energy : ℚ
  age : Nat
  hunger : Nat
  isAlive : Bool
  deriving DecidableEq, Repr

/-- Death-condition check from `StepProcessor.processDeaths`: age, then
starvation, then hunger, returning the first true condition's cause. -/
def deathCheck (lifespan hungerThreshold : Nat) (o : Mortal) : Option Cause :=
  if o.age ≥ lifespan then some Cause.age
  else if o.energy ≤ 0 then some Cause.starvation
  else if o.hunger ≥ hungerThreshold * 2 then some Cause.hunger
  else none

/-- List-level cull from `StepProcessor.processDeaths`: filters the batch,
returning survivors, and records `(id, cause)` for each organism whose first
true death condition is `cause`.  Organisms already flagged dead are dropped
without a record, as in the source. -/
def processDeathsList (lifespan hungerThreshold : Nat) :
    List Mortal → List Mortal × List (String × Cause)
  | [] => ([], [])
  | o :: os =>
    let rest := processDeathsList lifespan hungerThreshold os
    if o.isAlive = false then rest
    else
      match deathCheck lifespan hungerThreshold o with
      | some c => (rest.1, (o.id, c) :: rest.2)
      | none => (o :: rest.1, rest.2)

/-- Growth stages of grass, derived from density (SimulationTypes.Grass). -/
inductive GrowthStage
  | seed
  | sprout
  | mature
  | dying
  deriving DecidableEq, Repr

/-- Movement directions (SimulationTypes.Direction). -/
inductive Direction
  | north
  | northeast
  | east
  | southeast
  | south
  | southwest
  | west
  | northwest
  deriving DecidableEq, Repr

/-- Seasons (SimulationTypes.Season). -/
inductive Season
  | spring
  | summer
  | autumn
  | winter
  deriving DecidableEq, Repr

/-- Wolf pack roles. -/
inductive PackRole
  | alpha
  | beta
  | omega
  deriving DecidableEq, Repr

/-- Embedded reproduction state (SimulationTypes.ReproductionState, with the
runtime-backfilled shape used by ReproductionProcessor). -/
structure ReproductionState where
  isPregnant : Bool
  gestationRemaining : Int
  expectedLitterSize : Nat
  pregnancyEnergyCost : ℚ
  mateId : Option String := none
  lastMatingStep : Int
  deriving DecidableEq, Repr

/-- Grass organism (SimulationTypes.Grass plus the fields backfilled by
ReproductionProcessor). -/
structure Grass where
  id : String
  x : Int
  y : Int
  energy : ℚ
  age : Nat
  isAlive : Bool
  density : ℚ
  growthStage : GrowthStage
  lastGrazed : Nat
  seasonalGrowth : ℚ
  seedProduction : ℚ := 0
  lastSpreadStep : Nat := 0
  competitionStress : ℚ := 0
  deriving DecidableEq, Repr

/-- Sheep organism (SimulationTypes.Sheep plus reproductionState). -/
structure Sheep where
  id : String
  x : Int
  y : Int
  energy : ℚ
  age : Nat
  isAlive : Bool
  hunger : Nat
  reproductionCooldown : Nat
  flockId : Option String := none
  lastDirection : Direction
  grazingEfficiency : ℚ
  reproductionState : ReproductionState
  deriving DecidableEq, Repr

/-- Wolf organism (SimulationTypes.Wolf plus reproductionState/packRole). -/
structure Wolf where
  id : String
  x : Int
  y : Int
  energy : ℚ
  age : Nat
  isAlive : Bool
  hunger : Nat
  reproductionCooldown : Nat
  packId : Option String := none
  territoryId : Option String := none
  lastDirection : Direction
  huntingTarget : Option String
  packRole : PackRole := PackRole.omega
  reproductionState : ReproductionState
  deriving DecidableEq, Repr

/-- Grid cell (SimulationTypes.WorldCell): per-species occupancy is
independent, so a cell may hold one grass, one sheep and one wolf at once. -/
structure Cell where
  x : Int
  y : Int
  temperature : ℚ
  season : Season
  grass : Option Grass := none
  sheep : Option Sheep := none
  wolf : Option Wolf := none
  deriving DecidableEq, Repr

/-- Death-ledger record (SimulationTypes.DeathRecord).  The nested
`populationAtDeath`, `environmentalFactors` and `reproductionState` snapshots
are flattened into fields. -/
structure DeathRecord where
  organismId : String
  organismType : String
  cause : Cause
  step : Nat
  energy : ℚ
  age : Nat
  x : Int
  y : Int
  details : String
  popGrass : Nat
  popSheep : Nat
  popWolves : Nat
  nearbyPrey : Option Nat
  nearbyPredators : Option Nat
  localGrassDensity : ℚ
  repIsPregnant : Option Bool
  deriving DecidableEq, Repr

/-- Death statistics (SimulationTypes.DeathStatistics).  The source's
`deathsByCause` map is modelled as one counter per cause. -/
structure DeathStatistics where
  totalDeaths : Nat
  recentDeaths : List DeathRecord
  ageDeaths : Nat
  starvationDeaths : Nat
  hungerDeaths : Nat
  grazingDeaths : Nat
  huntingDeaths : Nat
  sheepDeaths : Nat
  wolfDeaths : Nat
  grassDeaths : Nat
  deriving DecidableEq, Repr

/-- World state (World.ts WorldState): the grid `cells` is indexed
`cells[x][y]` exactly as in the source, and the statistics fields that
`recordDeath` and `updateStatistics` read and write are inlined. -/
structure World where
  width : Nat
  height : Nat
  cells : List (List Cell)
  currentStep : Nat
  season : Season
  temperature : ℚ
  grassCount : Nat
  sheepCount : Nat
  wolfCount : Nat
  totalEnergy : ℚ
  averageGrassDensity : ℚ
  averageSheepEnergy : ℚ
  averageWolfEnergy : ℚ
  deathStats : DeathStatistics
  deriving DecidableEq, Repr

/-- Point update of a list element, used to model in-place mutation of
`cells[x][y]`. -/
def listUpdate {α : Type} : List α → Nat → (α → α) → List α
  | [], _, _ => []
  | a :: as, 0, f => f a :: as
  | a :: as, n + 1, f => a :: listUpdate as n f

/-- Bounds check from `World.isValidPosition`. -/
def isValidPosition (w : World) (x y : Int) : Bool :=
  decide (0 ≤ x) && decide (x < (w.width : Int)) &&
  decide (0 ≤ y) && decide (y < (w.height : Int))

/-- Bounds-checked cell read from `World.getCell` (returns null when out of
range, never throws). -/
def getCell (w : World) (x y : Int) : Option Cell :=
  if isValidPosition w x y then
    (w.cells[x.toNat]?).bind (fun col => col[y.toNat]?)
  else none

/-- In-place mutation of the cell object at `(x, y)`. -/
def modifyCell (w : World) (x y : Int) (f : Cell → Cell) : World :=
  { w with cells := listUpdate w.cells x.toNat (fun col => listUpdate col y.toNat f) }

/-- Partial cell content for `World.setCellContent` (a `Partial<WorldCell>`:
only the fields that are present are merged). -/
structure CellContent where
  grass : Option Grass := none
  sheep : Option Sheep := none
  wolf : Option Wolf := none
  temperature : Option ℚ := none
  season : Option Season := none

/-- Field-by-field merge performed by `World.setCellContent` on the target
cell: each defined field overwrites the cell's field, the rest are kept. -/
def applyContent (content : CellContent) (c : Cell) : Cell :=
  let c1 := match content.grass with
    | some g => { c with grass := some g }
    | none => c
  let c2 := match content.sheep with
    | some s => { c1 with sheep := some s }
    | none => c1
  let c3 := match content.wolf with
    | some v => { c2 with wolf := some v }
    | none => c2
  let c4 := match content.temperature with
    | some t => { c3 with temperature := t }
    | none => c3
  match content.season with
  | some s => { c4 with season := s }
  | none => c4

/-- `World.setCellContent`: bounds-checked merge of partial content into the
addressed cell; returns false (world unchanged) when out of range. -/
def setCellContent (w : World) (x y : Int) (content : CellContent) : Bool × World :=
  if isValidPosition w x y then (true, modifyCell w x y (applyContent content))
  else (false, w)

/-- `World.clearCellContent`: bounds-checked delete of the grass, sheep and
wolf references of the addressed cell. -/
def clearCellContent (w : World) (x y : Int) : Bool × World :=
  if isValidPosition w x y then
    (true, modifyCell w x y (fun c => { c with grass := none, sheep := none, wolf := none }))
  else (false, w)

/-- Raster-order position list of the grid scan in
`World.getOrganismsByType` (x outer, y inner, as in the source loops). -/
def posList (w : World) : List (Int × Int) :=
  ((List.range w.width).map Int.ofNat).flatMap
    (fun x => ((List.range w.height).map Int.ofNat).map (fun y => (x, y)))

/-- Grass occupant of a cell, or none. -/
def grassAt (w : World) (x y : Int) : Option Grass := (getCell w x y).bind Cell.grass

/-- Sheep occupant of a cell, or none. -/
def sheepAt (w : World) (x y : Int) : Option Sheep := (getCell w x y).bind Cell.sheep

/-- Wolf occupant of a cell, or none. -/
def wolfAt (w : World) (x y : Int) : Option Wolf := (getCell w x y).bind Cell.wolf

/-- `World.getOrganismsByType('grass')`: full raster scan. -/
def getGrassList (w : World) : List Grass :=
  (posList w).filterMap (fun p => grassAt w p.1 p.2)

/-- `World.getOrganismsByType('sheep')`: full raster scan. -/
def getSheepList (w : World) : List Sheep :=
  (posList w).filterMap (fun p => sheepAt w p.1 p.2)

/-- `World.getOrganismsByType('wolf')`: full raster scan. -/
def getWolfList (w : World) : List Wolf :=
  (posList w).filterMap (fun p => wolfAt w p.1 p.2)

/-- Sum of a rational-valued function over a list (the reduce calls in
`World.updateStatistics`). -/
def sumBy {α : Type} (f : α → ℚ) (l : List α) : ℚ :=
  l.foldl (fun acc a => acc + f a) 0

/-- `World.updateStatistics`: recompute aggregate counts and energies by a
full scan. -/
def updateStatistics (w : World) : World :=
  let grass := getGrassList w
  let sheep := getSheepList w
  let wolves := getWolfList w
  { w with
    grassCount := grass.length
    sheepCount := sheep.length
    wolfCount := wolves.length
    totalEnergy := sumBy Grass.energy grass + sumBy Sheep.energy sheep + sumBy Wolf.energy wolves
    averageGrassDensity :=
      if grass.length > 0 then sumBy Grass.density grass / grass.length else 0
    averageSheepEnergy :=
      if sheep.length > 0 then sumBy Sheep.energy sheep / sheep.length else 0
    averageWolfEnergy :=
      if wolves.length > 0 then sumBy Wolf.energy wolves / wolves.length else 0 }

/-- Organism snapshot passed to `World.recordDeath`.  The source passes the
organism object and discriminates its species by field presence
(`getOrganismType`); here the caller supplies the species name directly. -/
structure OrganismSnapshot where
  id : String
  typeName : String
  energy : ℚ
  age : Nat
  x : Int
  y : Int
  repIsPregnant : Option Bool
  deriving DecidableEq, Repr

/-- Offsets −radius..radius in ascending order, as produced by the source's
`for (let d = -radius; d <= radius; d++)` loops. -/
def scanOffsets (radius : Nat) : List Int :=
  (List.range (2 * radius + 1)).map (fun i => (i : Int) - (radius : Int))

/-- `World.gatherEnvironmentalContext`: 5-cell-radius scan counting nearby
prey (sheep, for a dying wolf), nearby predators (wolves, for a dying sheep)
and average local grass density.  Returns
(nearbyPrey, nearbyPredators, localGrassDensity). -/
def gatherEnvironmentalContext (w : World) (ox oy : Int) (typeName : String) :
    Option Nat × Option Nat × ℚ :=
  let acc := (scanOffsets 5).foldl (fun acc3 dx =>
    (scanOffsets 5).foldl (fun acc2 dy =>
      let x := ox + dx
      let y := oy + dy
      match getCell w x y with
      | none => acc2
      | some cell =>
        let acc2a := match cell.grass with
          | some g => (acc2.1, acc2.2.1, acc2.2.2.1 + g.density, acc2.2.2.2 + 1)
          | none => acc2
        if typeName = "wolf" then
          match cell.sheep with
          | some _ => (acc2a.1 + 1, acc2a.2.1, acc2a.2.2.1, acc2a.2.2.2)
          | none => acc2a
        else if typeName = "sheep" then
          match cell.wolf with
          | some _ => (acc2a.1, acc2a.2.1 + 1, acc2a.2.2.1, acc2a.2.2.2)
          | none => acc2a
        else acc2a) acc3) ((0, 0, 0, 0) : Nat × Nat × ℚ × Nat)
  (if acc.1 > 0 then some acc.1 else none,
   if acc.2.1 > 0 then some acc.2.1 else none,
   if acc.2.2.2 > 0 then acc.2.2.1 / (acc.2.2.2 : ℚ) else 0)

/-- Per-cause counter bump for the modelled `deathsByCause` map. -/
def bumpCause (c : Cause) (d : DeathStatistics) : DeathStatistics :=
  match c with
  | Cause.age => { d with ageDeaths := d.ageDeaths + 1 }
  | Cause.starvation => { d with starvationDeaths := d.starvationDeaths + 1 }
  | Cause.hunger => { d with hungerDeaths := d.hungerDeaths + 1 }
  | Cause.grazing => { d with grazingDeaths := d.grazingDeaths + 1 }
  | Cause.hunting => { d with huntingDeaths := d.huntingDeaths + 1 }

/-- Per-type counter bump (`sheepDeaths`/`wolfDeaths`/`grassDeaths`). -/
def bumpType (typeName : String) (d : DeathStatistics) : DeathStatistics :=
  if typeName = "sheep" then { d with sheepDeaths := d.sheepDeaths + 1 }
  else if typeName = "wolf" then { d with wolfDeaths := d.wolfDeaths + 1 }
  else if typeName = "grass" then { d with grassDeaths := d.grassDeaths + 1 }
  else d

/-- `World.recordDeath`: append a record with environmental snapshot to the
ledger (keeping the last 50), and bump the total, per-cause and per-type
counters. -/
def recordDeath (w : World) (o : OrganismSnapshot) (cause : Cause) (details : String) : World :=
  let env := gatherEnvironmentalContext w o.x o.y o.typeName
  let rec0 : DeathRecord :=
    { organismId := o.id
      organismType := o.typeName
      cause := cause
      step := w.currentStep
      energy := o.energy
      age := o.age
      x := o.x
      y := o.y
      details := details
      popGrass := w.grassCount
      popSheep := w.sheepCount
      popWolves := w.wolfCount
      nearbyPrey := env.1
      nearbyPredators := env.2.1
      localGrassDensity := env.2.2
      repIsPregnant := o.repIsPregnant }
  let pushed := w.deathStats.recentDeaths ++ [rec0]
  let kept := if pushed.length > 50 then pushed.drop 1 else pushed
  let d1 := { w.deathStats with
    recentDeaths := kept
    totalDeaths := w.deathStats.totalDeaths + 1 }
  { w with deathStats := bumpType o.typeName (bumpCause cause d1) }

/-- Empty death statistics, as initialized by `World.initializeDeathStats`. -/
def emptyStats : DeathStatistics :=
  { totalDeaths := 0, recentDeaths := [], ageDeaths := 0, starvationDeaths := 0,
    hungerDeaths := 0, grazingDeaths := 0, huntingDeaths := 0,
    sheepDeaths := 0, wolfDeaths := 0, grassDeaths := 0 }

/-- Default cell produced by `World.initializeWorld` (temperature 20,
spring). -/
def defaultCell (x y : Int) : Cell :=
  { x := x, y := y, temperature := 20, season := Season.spring }

/-- Fresh world of the given dimensions, as built by `World.initializeWorld`. -/
def mkWorld (width height : Nat) : World :=
  { width := width
    height := height
    cells := (List.range width).map (fun x =>
      (List.range height).map (fun y => defaultCell (x : Int) (y : Int)))
    currentStep := 0
    season := Season.spring
    temperature := 20
    grassCount := 0
    sheepCount := 0
    wolfCount := 0
    totalEnergy := 0
    averageGrassDensity := 0
    averageSheepEnergy := 0
    averageWolfEnergy := 0
    deathStats := emptyStats }

/-- Idle reproduction state used for sample organisms. -/
def idleRep : ReproductionState :=
  { isPregnant := false, gestationRemaining := 0, expectedLitterSize := 0,
    pregnancyEnergyCost := 0, lastMatingStep := 0 }

/-- Sample mature grass organism. -/
def sampleGrass : Grass :=
  { id := "g1", x := 0, y := 0, energy := 1, age := 3, isAlive := true,
    density := 1, growthStage := GrowthStage.mature, lastGrazed := 0,
    seasonalGrowth := 1 }

/-- Sample live sheep organism. -/
def sampleSheep : Sheep :=
  { id := "s1", x := 0, y := 0, energy := 1, age := 5, isAlive := true,
    hunger := 0, reproductionCooldown := 0, lastDirection := Direction.north,
    grazingEfficiency := 1, reproductionState := idleRep }

/-- Sample live wolf organism. -/
def sampleWolf : Wolf :=
  { id := "w1", x := 0, y := 0, energy := 1, age := 5, isAlive := true,
    hunger := 0, reproductionCooldown := 0, lastDirection := Direction.north,
    huntingTarget := none, reproductionState := idleRep }

/-- Season recomputation from `World.updateSeason`: thresholds on the raw
step count, with everything from `seasonLength*4` onwards mapped to spring
("Reset to spring after full year" — no modulo is taken). -/
def updateSeason (seasonLength step : Nat) : Season :=
  if step < seasonLength then Season.spring
  else if step < seasonLength * 2 then Season.summer
  else if step < seasonLength * 3 then Season.autumn
  else if step < seasonLength * 4 then Season.winter
  else Season.spring

/-- Season formula written from the spec's words, for comparison: four
fixed-length seasons determined by `step mod (seasonLength*4)`, cycling
indefinitely. -/
def cyclicSeason (seasonLength step : Nat) : Season :=
  let r := step % (seasonLength * 4)
  if r < seasonLength then Season.spring
  else if r < seasonLength * 2 then Season.summer
  else if r < seasonLength * 3 then Season.autumn
  else Season.winter

/-- Temperature recomputation from `World.updateTemperature`: base 20
shifted by a season-specific offset. -/
def updateTemperature (s : Season) : ℚ :=
  match s with
  | Season.spring => 20 + 5
  | Season.summer => 20 + 15
  | Season.autumn => 20 + 5
  | Season.winter => 20 - 10

/-- Cell stamping from `World.updateAllCells`. -/
def updateAllCells (w : World) : World :=
  { w with cells := w.cells.map (fun col => col.map (fun c =>
      { c with season := w.season, temperature := w.temperature })) }

/-- `World.incrementStep`: advance the counter, recompute season and
temperature, stamp all cells. -/
def incrementStep (seasonLength : Nat) (w : World) : World :=
  let w1 := { w with currentStep := w.currentStep + 1 }
  let w2 := { w1 with season := updateSeason seasonLength w1.currentStep }
  let w3 := { w2 with temperature := updateTemperature w2.season }
  updateAllCells w3

/-- Per-cell occupancy invariant at grid index (x, y): the cell holds at
most one organism of each species (one Option field per species, as in the
source's WorldCell), each stored organism is alive, and its recorded
coordinates equal the cell's indices — hence in bounds. -/
def cellInv (x y : Nat) (c : Cell) : Bool :=
  (match c.grass with
   | none => true
   | some g => g.isAlive && g.x == (x : Int) && g.y == (y : Int)) &&
  (match c.sheep with
   | none => true
   | some s => s.isAlive && s.x == (x : Int) && s.y == (y : Int)) &&
  (match c.wolf with
   | none => true
   | some v => v.isAlive && v.x == (x : Int) && v.y == (y : Int))

/-- Column part of the grid invariant, with running y index. -/
def colInv (x : Nat) : Nat → List Cell → Bool
  | _, [] => true
  | y, c :: cs => cellInv x y c && colInv x (y + 1) cs

/-- Grid part of the world invariant, with running x index. -/
def gridInv (h : Nat) : Nat → List (List Cell) → Bool
  | _, [] => true
  | x, col :: cols => (col.length == h) && colInv x 0 col && gridInv h (x + 1) cols

/-- World invariant: the grid has the declared dimensions and every cell
satisfies `cellInv`. -/
def worldInv (w : World) : Bool :=
  (w.cells.length == w.width) && gridInv w.height 0 w.cells

/-- Direction from a movement delta (`StepProcessor.getDirection`). -/
def getDirection (dx dy : Int) : Direction :=
  if dx = 0 ∧ dy < 0 then Direction.north
  else if dx > 0 ∧ dy < 0 then Direction.northeast
  else if dx > 0 ∧ dy = 0 then Direction.east
  else if dx > 0 ∧ dy > 0 then Direction.southeast
  else if dx = 0 ∧ dy > 0 then Direction.south
  else if dx < 0 ∧ dy > 0 then Direction.southwest
  else if dx < 0 ∧ dy = 0 then Direction.west
  else if dx < 0 ∧ dy < 0 then Direction.northwest
  else Direction.north

/-- `StepProcessor.moveOrganism` (the revision that deletes only the moved
species from the old cell), monomorphised to sheep: clear the old cell's
sheep reference, update the organism's coordinates and direction, merge it
into the new cell. -/
def moveSheep (w : World) (s : Sheep) (newX newY : Int) : World × Sheep :=
  let oldX := s.x
  let oldY := s.y
  let w1 := match getCell w oldX oldY with
    | some _ => modifyCell w oldX oldY (fun c => { c with sheep := none })
    | none => w
  let s1 := { s with x := newX, y := newY,
                     lastDirection := getDirection (newX - oldX) (newY - oldY) }
  ((setCellContent w1 newX newY { sheep := some s1 }).2, s1)

/-- `StepProcessor.moveOrganism` monomorphised to wolf. -/
def moveWolf (w : World) (v : Wolf) (newX newY : Int) : World × Wolf :=
  let oldX := v.x
  let oldY := v.y
  let w1 := match getCell w oldX oldY with
    | some _ => modifyCell w oldX oldY (fun c => { c with wolf := none })
    | none => w
  let v1 := { v with x := newX, y := newY,
                     lastDirection := getDirection (newX - oldX) (newY - oldY) }
  ((setCellContent w1 newX newY { wolf := some v1 }).2, v1)

/-- Ring of offsets at exact Manhattan radius r, in the source's loop order
(dx ascending, dy ascending, skipping offsets with |dx|+|dy| ≠ r). -/
def ringOffsets (r : Nat) : List (Int × Int) :=
  (scanOffsets r).flatMap (fun dx => (scanOffsets r).filterMap (fun dy =>
    if dx.natAbs + dy.natAbs = r then some (dx, dy) else none))

/-- `ReproductionProcessor.findNearbyEmptyCell`: scan rings of Manhattan
radius 1..radius around (x, y); the first in-bounds cell holding no sheep
and no wolf is returned — grass occupancy is not examined. -/
def findNearbyEmptyCell (w : World) (x y : Int) (radius : Nat) : Option (Int × Int) :=
  ((List.range radius).map (fun i => i + 1)).findSome? (fun r =>
    (ringOffsets r).findSome? (fun d =>
      let newX := x + d.1
      let newY := y + d.2
      match getCell w newX newY with
      | some cell =>
        if cell.sheep = none ∧ cell.wolf = none then some (newX, newY) else none
      | none => none))

/-- `ReproductionProcessor.varyTrait`: base ± uniform variation, clamped to
[0.1, 1.0].  `rand` is the Math.random() draw in [0, 1). -/
def varyTrait (baseValue variation rand : ℚ) : ℚ :=
  let change := (rand - 1/2) * 2 * variation
  max (1/10) (min 1 (baseValue + change))

/-- Inherited trait bundle (SimulationTypes.OffspringTraits). -/
structure OffspringTraits where
  grazingEfficiency : Option ℚ
  huntingSkill : Option ℚ
  energyEfficiency : ℚ
  maxLifespan : Int
  deriving DecidableEq, Repr

/-- `ReproductionProcessor.generateInheritedTraits` for a sheep parent:
grazing efficiency varies the parent's value; the hunting-skill branch is
skipped (sheep lack `huntingTarget`); energy efficiency varies the constant
base 1.0; max lifespan varies the species' configured lifespan with halved
variation and, like every `varyTrait` result, is clamped to [0.1, 1.0]
before flooring. -/
def generateInheritedTraitsSheep (parent : Sheep) (cfgLifespan : Nat)
    (variation r1 r2 r3 : ℚ) : OffspringTraits :=
  { grazingEfficiency := some (varyTrait parent.grazingEfficiency variation r1)
    huntingSkill := none
    energyEfficiency := varyTrait 1 variation r2
    maxLifespan := ⌊varyTrait (cfgLifespan : ℚ) (variation * (1/2)) r3⌋ }

/-- `ReproductionProcessor.generateInheritedTraits` for a wolf parent: the
grazing branch is skipped (wolves lack `grazingEfficiency`); hunting skill
varies the constant base 0.8; the rest as for sheep. -/
def generateInheritedTraitsWolf (cfgLifespan : Nat)
    (variation r1 r2 r3 : ℚ) : OffspringTraits :=
  { grazingEfficiency := none
    huntingSkill := some (varyTrait (4/5) variation r1)
    energyEfficiency := varyTrait 1 variation r2
    maxLifespan := ⌊varyTrait (cfgLifespan : ℚ) (variation * (1/2)) r3⌋ }

/-- Trait inheritance written from the spec's words, for comparison: the
trait equals the parent's value for that trait plus or minus a uniformly
drawn variation, clamped to that trait's valid range [lo, hi]. -/
def specInheritedTrait (parentValue variation rand lo hi : ℚ) : ℚ :=
  max lo (min hi (parentValue + (rand - 1/2) * 2 * variation))

/-- `ReproductionProcessor.createOffspringOrganism` for a sheep offspring:
fixed starting attributes, inherited grazing efficiency with JS-falsy
fallback to 0.8, parent's flock id.  The random id suffix of the source is
not modelled. -/
def createOffspringOrganismSheep (parent : Sheep) (loc : Int × Int)
    (traits : OffspringTraits) (currentStep : Nat) : Sheep :=
  { id := "sheep-offspring-" ++ toString currentStep
    x := loc.1
    y := loc.2
    energy := 3/5
    age := 0
    isAlive := true
    hunger := 0
    reproductionCooldown := 0
    lastDirection := Direction.north
    grazingEfficiency :=
      (match traits.grazingEfficiency with
       | some g => if g = 0 then 4/5 else g
       | none => 4/5)
    flockId := parent.flockId
    reproductionState := idleRep }

/-- `ReproductionProcessor.createOffspring` for a sheep parent: find a
nearby empty cell within radius 2; if none exists the offspring is silently
dropped and the world is unchanged; otherwise generate inherited traits and
place the offspring there. -/
def createOffspringSheep (w : World) (parent : Sheep) (currentStep : Nat)
    (cfgLifespan : Nat) (variation r1 r2 r3 : ℚ) : World × Option Sheep :=
  match findNearbyEmptyCell w parent.x parent.y 2 with
  | none => (w, none)
  | some loc =>
    let traits := generateInheritedTraitsSheep parent cfgLifespan variation r1 r2 r3
    let off := createOffspringOrganismSheep parent loc traits currentStep
    ((setCellContent w loc.1 loc.2 { sheep := some off }).2, some off)

/-- `StepProcessor.createSheepOffspring`: place a fixed-attribute lamb at a
random offset within 1 cell of parent1, only if the target cell is in
bounds and holds no sheep and no wolf; otherwise it is silently dropped.
The id's timestamp/random suffix is replaced by the step number. -/
def createSheepOffspringStep (w : World) (parent1 : Sheep) (r1 r2 : ℚ)
    (currentStep : Nat) : World :=
  let offspringX := parent1.x + ⌊r1 * 3⌋ - 1
  let offspringY := parent1.y + ⌊r2 * 3⌋ - 1
  let off : Sheep :=
    { id := "sheep-" ++ toString currentStep
      x := offspringX
      y := offspringY
      energy := 1/2
      age := 0
      isAlive := true
      hunger := 0
      reproductionCooldown := 10
      lastDirection := Direction.north
      grazingEfficiency := 4/5
      reproductionState := idleRep }
  if isValidPosition w offspringX offspringY then
    match getCell w offspringX offspringY with
    | some cell =>
      if cell.sheep = none ∧ cell.wolf = none then
        (setCellContent w offspringX offspringY { sheep := some off }).2
      else w
    | none => w
  else w

/-- Success threshold of `ReproductionProcessor.initiateMating`: the
energy-dependent reproduction probability
`reproductionRate × min(1, (avgEnergy / 1.0)²)` — the divisor 1.0 is the
hardcoded maximum energy and the quadratic factor is clamped at 1. -/
def matingThreshold (reproductionRate e1 e2 : ℚ) : ℚ :=
  let avgEnergy := (e1 + e2) / 2
  let energyScalingFactor := min 1 ((avgEnergy / 1) ^ 2)
  reproductionRate * energyScalingFactor

/-- Mating success probability written from the spec's words, for
comparison: `P = baseReproductionRate × (avgParentEnergy / maxEnergy)²`. -/
def specMatingProbability (baseRate avgEnergy maxEnergy : ℚ) : ℚ :=
  baseRate * (avgEnergy / maxEnergy) ^ 2

/-- `ReproductionProcessor.initiateMating`, monomorphised to sheep (the
wolf path runs the identical code with the wolf config): the stochastic
roll succeeds when `rSuccess < matingThreshold`; on success a random parent
becomes pregnant with a uniformly drawn litter size and the per-tick
pregnancy cost `energyCost / gestationPeriod`, and both parents' last
mating step is stamped.  Returns `some (pregnantParent, mate)` on success,
`none` on a failed roll. -/
def initiateMatingSheep (rate : ℚ) (gestationPeriod : Nat) (energyCost : ℚ)
    (litterMin litterMax : Nat) (o1 o2 : Sheep) (currentStep : Nat)
    (rSuccess rChoose rLitter : ℚ) : Option (Sheep × Sheep) :=
  let actualReproductionRate := matingThreshold rate o1.energy o2.energy
  if rSuccess ≥ actualReproductionRate then none
  else
    let litterSize :=
      (⌊rLitter * ((litterMax : ℚ) - (litterMin : ℚ) + 1)⌋ + (litterMin : Int)).toNat
    let pregnant := if rChoose < 1/2 then o1 else o2
    let mate := if rChoose < 1/2 then o2 else o1
    let pregnant1 := { pregnant with reproductionState :=
      { isPregnant := true
        gestationRemaining := (gestationPeriod : Int)
        expectedLitterSize := litterSize
        pregnancyEnergyCost := energyCost / (gestationPeriod : ℚ)
        mateId := some mate.id
        lastMatingStep := (currentStep : Int) } }
    let mate1 := { mate with reproductionState :=
      { mate.reproductionState with lastMatingStep := (currentStep : Int) } }
    some (pregnant1, mate1)

/-- Organism snapshot of a sheep for `recordDeath` (the source's
`getOrganismType`/`getReproductionContext` applied to a sheep). -/
def sheepSnapshot (s : Sheep) : OrganismSnapshot :=
  { id := s.id, typeName := "sheep", energy := s.energy, age := s.age,
    x := s.x, y := s.y, repIsPregnant := some s.reproductionState.isPregnant }

/-- Organism snapshot of a wolf for `recordDeath`. -/
def wolfSnapshot (v : Wolf) : OrganismSnapshot :=
  { id := v.id, typeName := "wolf", energy := v.energy, age := v.age,
    x := v.x, y := v.y, repIsPregnant := some v.reproductionState.isPregnant }

/-- Organism snapshot of a grass patch for `recordDeath` (grass has no
reproduction state). -/
def grassSnapshot (g : Grass) : OrganismSnapshot :=
  { id := g.id, typeName := "grass", energy := g.energy, age := g.age,
    x := g.x, y := g.y, repIsPregnant := none }

/-- `createOffspringSheep` with its three Math.random() draws taken from a
stream (missing draws default to 0). -/
def createOffspringSheepR (w : World) (parent : Sheep)
    (currentStep cfgLifespan : Nat) (variation : ℚ) (rs : List ℚ) :
    World × Option Sheep × List ℚ :=
  match findNearbyEmptyCell w parent.x parent.y 2 with
  | none => (w, none, rs)
  | some _ =>
    let out := createOffspringSheep w parent currentStep cfgLifespan variation
      (rs.headD 0) ((rs.drop 1).headD 0) ((rs.drop 2).headD 0)
    (out.1, out.2, rs.drop 3)

/-- `ReproductionProcessor.giveBirth` for a sheep parent: spawn
`expectedLitterSize` offspring (each silently dropped when no empty cell is
found), then reset the parent's reproduction state to not-pregnant with the
birth step stamped, and start the reproduction cooldown. -/
def giveBirthSheep (w : World) (parent : Sheep)
    (currentStep cooldownPeriod cfgLifespan : Nat) (variation : ℚ)
    (rs : List ℚ) : World × Sheep × List ℚ :=
  let wr := (List.range parent.reproductionState.expectedLitterSize).foldl
    (fun acc _ =>
      let out := createOffspringSheepR acc.1 parent currentStep cfgLifespan variation acc.2
      (out.1, out.2.2)) (w, rs)
  let rep1 : ReproductionState :=
    { isPregnant := false, gestationRemaining := 0, expectedLitterSize := 0,
      pregnancyEnergyCost := 0, lastMatingStep := (currentStep : Int) }
  let parent1 :=
    { parent with reproductionState := rep1, reproductionCooldown := cooldownPeriod }
  (wr.1, parent1, wr.2)

/-- `ReproductionProcessor.processPregnancy` for the sheep at (x, y): apply
the per-tick pregnancy energy cost to the carrying parent; if its energy
then falls at or under the miscarriage floor 0.2, record a starvation-cause
event (with the pregnancy snapshot) on the ledger and clear the pregnancy
flag — the parent itself stays alive and on the grid; otherwise decrement
gestationRemaining, and when it reaches zero fire the birth.  In-place
object mutation is modelled by writing the updated sheep back to its
cell. -/
def processPregnancySheep (w : World) (x y : Int) (currentStep : Nat)
    (cooldownPeriod cfgLifespan : Nat) (variation : ℚ) (rs : List ℚ) :
    World × List ℚ :=
  match sheepAt w x y with
  | none => (w, rs)
  | some s =>
    let s1 := { s with energy := s.energy - s.reproductionState.pregnancyEnergyCost }
    let w1 := (setCellContent w x y { sheep := some s1 }).2
    if s1.energy ≤ 1/5 then
      let w2 := recordDeath w1 (sheepSnapshot s1) Cause.starvation
        "Miscarriage due to low energy"
      let s2 := { s1 with reproductionState :=
        { s1.reproductionState with isPregnant := false } }
      ((setCellContent w2 x y { sheep := some s2 }).2, rs)
    else
      let rep1 := { s1.reproductionState with
        gestationRemaining := s1.reproductionState.gestationRemaining - 1 }
      let s2 := { s1 with reproductionState := rep1 }
      if rep1.gestationRemaining ≤ (0 : Int) then
        let w2 := (setCellContent w1 x y { sheep := some s2 }).2
        let out := giveBirthSheep w2 s2 currentStep cooldownPeriod cfgLifespan variation rs
        ((setCellContent out.1 x y { sheep := some out.2.1 }).2, out.2.2)
      else
        ((setCellContent w1 x y { sheep := some s2 }).2, rs)

/-- Wolf parameters consumed by the wolf pass (WorldConfig.wolf). -/
structure WolfCfg where
  movementRange : Nat
  hungerThreshold : Nat
  huntingRadius : Nat
  energyPerStep : ℚ
  energyPerSheep : ℚ
  lifespan : Nat
  deriving DecidableEq, Repr

/-- Wolf configuration for a concrete hunting scenario (integer energies keep
the rational arithmetic kernel-evaluable). -/
def c6cfg : WolfCfg :=
  { movementRange := 1, hungerThreshold := 2, huntingRadius := 2,
    energyPerStep := 1, energyPerSheep := 3, lifespan := 100 }

/-- A hungry wolf at (0,0) for the concrete hunting scenario. -/
def c6wolf : Wolf := { sampleWolf with hunger := 2, energy := 5 }

/-- A sheep at (1,0), adjacent to the wolf, for the concrete hunting
scenario. -/
def c6sheep : Sheep := { sampleSheep with x := 1 }

/-- 3x1 world holding the hungry wolf at (0,0) and the sheep at (1,0). -/
def c6world : World :=
  (setCellContent (setCellContent (mkWorld 3 1) 0 0 { wolf := some c6wolf }).2
    1 0 { sheep := some c6sheep }).2

/-- `StepProcessor.findNearbyOrganisms` monomorphised to sheep: scan the
square of the given radius (dx then dy, ascending) collecting the sheep of
every in-bounds cell. -/
def findNearbySheep (w : World) (x y : Int) (radius : Nat) : List Sheep :=
  (scanOffsets radius).flatMap (fun dx =>
    (scanOffsets radius).filterMap (fun dy => sheepAt w (x + dx) (y + dy)))

/-- In-place mutation of the wolf object inside its cell (TS mutates the
aliased object; here the update is applied through the cell). -/
def updateWolfAt (w : World) (x y : Int) (f : Wolf → Wolf) : World :=
  if isValidPosition w x y then
    modifyCell w x y (fun c => { c with wolf := c.wolf.map f })
  else w

/-- The hunting consumption's `delete cell.sheep` (only the sheep reference
of the cell is removed). -/
def deleteSheepAt (w : World) (x y : Int) : World :=
  match getCell w x y with
  | some _ => modifyCell w x y (fun c => { c with sheep := none })
  | none => w

/-- Per-wolf aging from `processWolvesBatch`: age and hunger increment,
energy decays by the per-step cost. -/
def ageWolfFn (energyPerStep : ℚ) (u : Wolf) : Wolf :=
  { u with age := u.age + 1, hunger := u.hunger + 1, energy := u.energy - energyPerStep }

/-- Batch aging over the wolves captured at pass start. -/
def agingPassWolves (cfg : WolfCfg) (w : World) (wolves : List Wolf) : World :=
  wolves.foldl (fun acc v => updateWolfAt acc v.x v.y (ageWolfFn cfg.energyPerStep)) w

/-- Mortal view of a wolf for the shared `processDeaths` check. -/
def wolfMortal (v : Wolf) : Mortal :=
  { id := v.id, x := v.x, y := v.y, energy := v.energy, age := v.age,
    hunger := v.hunger, isAlive := v.isAlive }

/-- Death check of the wolf cull (deathCheck with the wolf config). -/
def deathCheckWolf (cfg : WolfCfg) (v : Wolf) : Option Cause :=
  deathCheck cfg.lifespan cfg.hungerThreshold (wolfMortal v)

/-- `StepProcessor.processDeaths` over the world for wolves: organisms whose
first true death condition fires are flagged dead, their cell is cleared
(the source calls the all-species `clearCellContent` here) and the death is
recorded; the survivors are returned in order.  The detail strings are
abbreviated. -/
def cullWolves (cfg : WolfCfg) (w : World) (ws : List Wolf) : World × List Wolf :=
  ws.foldl (fun acc v =>
    if v.isAlive = false then acc
    else
      match deathCheckWolf cfg v with
      | some c =>
        let w1 := (clearCellContent acc.1 v.x v.y).2
        let w2 := recordDeath w1 (wolfSnapshot { v with isAlive := false }) c
          (match c with
           | Cause.age => "Reached max age"
           | Cause.starvation => "Energy depleted"
           | _ => "Hunger threshold exceeded")
        (w2, acc.2)
      | none => (acc.1, acc.2 ++ [v])) (w, [])

/-- `StepProcessor.moveTowardTarget`: step one cell toward the target if the
destination is in bounds and holds no wolf.  The moved object is looked up
at the wolf's current cell (aliasing model). -/
def moveTowardTarget (cfg : WolfCfg) (w : World) (v : Wolf) (targetX targetY : Int) : World :=
  let moveX := (targetX - v.x).sign
  let moveY := (targetY - v.y).sign
  let newX := v.x + moveX
  let newY := v.y + moveY
  if isValidPosition w newX newY then
    match getCell w newX newY with
    | some cell =>
      if cell.wolf = none then
        match wolfAt w v.x v.y with
        | some u => (moveWolf w u newX newY).1
        | none => w
      else w
    | none => w
  else w

/-- One hungry wolf's turn inside `processWolfHuntingBatch`: find the first
sheep in the hunting radius and either eat it when adjacent
(Euclidean distance ≤ 1, written squared) — death record, sheep reference
deleted from its cell, energy gain, hunger reset — or set it as the hunting
target and step toward it; with no sheep in range the target is cleared. -/
def huntStep (cfg : WolfCfg) (acc : World) (v : Wolf) : World :=
  let nearby := findNearbySheep acc v.x v.y cfg.huntingRadius
  match nearby with
  | [] => updateWolfAt acc v.x v.y (fun u => { u with huntingTarget := none })
  | t :: _ =>
    let acc1 := updateWolfAt acc v.x v.y (fun u => { u with huntingTarget := some t.id })
    if (t.x - v.x) ^ 2 + (t.y - v.y) ^ 2 ≤ 1 then
      let acc2 := recordDeath acc1 (sheepSnapshot t) Cause.hunting
        ("Hunted by wolf " ++ v.id)
      let acc3 := deleteSheepAt acc2 t.x t.y
      updateWolfAt acc3 v.x v.y (fun u =>
        { u with energy := u.energy + cfg.energyPerSheep, hunger := 0,
                 huntingTarget := none })
    else
      moveTowardTarget cfg acc1 v t.x t.y

/-- `StepProcessor.processWolfHuntingBatch`: the wolves whose hunger reached
the threshold hunt in order. -/
def processWolfHuntingBatch (cfg : WolfCfg) (w : World) (wolves : List Wolf) : World :=
  (wolves.filter (fun v => v.hunger ≥ cfg.hungerThreshold)).foldl (huntStep cfg) w

/-- Position of the wolf object with the given id (stand-in for the object
reference the source iterates over; ids are unique). -/
def wolfPosById (w : World) (id : String) : Option (Int × Int) :=
  (posList w).findSome? (fun p =>
    match wolfAt w p.1 p.2 with
    | some u => if u.id = id then some p else none
    | none => none)

/-- A Math.random() movement offset: `Math.floor(r * (2*range + 1)) - range`. -/
def randOffset (range : Nat) (r : ℚ) : Int :=
  ⌊r * (2 * (range : ℚ) + 1)⌋ - (range : Int)

/-- The random-movement retry loop (3 attempts in the source): each attempt
draws dx and dy; the first in-bounds, wolf-free destination is taken. -/
def wolfRandomMoveLoop (cfg : WolfCfg) : Nat → World → Int → Int → List ℚ → World × List ℚ
  | 0, w, _, _, rs => (w, rs)
  | Nat.succ n, w, x, y, rs =>
    let dx := randOffset cfg.movementRange (rs.headD 0)
    let dy := randOffset cfg.movementRange ((rs.drop 1).headD 0)
    let rs1 := rs.drop 2
    let newX := x + dx
    let newY := y + dy
    if isValidPosition w newX newY then
      match getCell w newX newY with
      | some cell =>
        if cell.wolf = none then
          match wolfAt w x y with
          | some u => ((moveWolf w u newX newY).1, rs1)
          | none => (w, rs1)
        else wolfRandomMoveLoop cfg n w x y rs1
      | none => wolfRandomMoveLoop cfg n w x y rs1
    else wolfRandomMoveLoop cfg n w x y rs1

/-- One wolf's turn inside `processWolfMovementBatch` (wolves with a live
hunting target are skipped, as by the source's filter): when somewhat
hungry the full hunting radius is scanned, otherwise 70% of it; with a
sheep in range the wolf strides up to `min(4, movementRange)` cells toward
it if the destination is free, falling back to the random loop. -/
def wolfMovementStep (cfg : WolfCfg) (st : World × List ℚ) (v : Wolf) : World × List ℚ :=
  match wolfPosById st.1 v.id with
  | none => st
  | some p =>
    match wolfAt st.1 p.1 p.2 with
    | none => st
    | some u =>
      if u.huntingTarget ≠ none then st
      else
        let isHungry := (u.hunger : ℚ) ≥ (cfg.hungerThreshold : ℚ) * (2/5)
        let searchRadius := if isHungry then cfg.huntingRadius else 7 * cfg.huntingRadius / 10
        match findNearbySheep st.1 p.1 p.2 searchRadius with
        | t :: _ =>
          let dx := (t.x - u.x).sign
          let dy := (t.y - u.y).sign
          let moveDistance := min 4 cfg.movementRange
          let newX := u.x + dx * (moveDistance : Int)
          let newY := u.y + dy * (moveDistance : Int)
          if isValidPosition st.1 newX newY then
            match getCell st.1 newX newY with
            | some cell =>
              if cell.wolf = none then ((moveWolf st.1 u newX newY).1, st.2)
              else wolfRandomMoveLoop cfg 3 st.1 p.1 p.2 st.2
            | none => wolfRandomMoveLoop cfg 3 st.1 p.1 p.2 st.2
          else wolfRandomMoveLoop cfg 3 st.1 p.1 p.2 st.2
        | [] => wolfRandomMoveLoop cfg 3 st.1 p.1 p.2 st.2

/-- `StepProcessor.processWolvesBatch`: batch aging (the captured array's
objects mutate in place, modelled by mapping the aging function), the cull,
the hunting pass over the survivors, then the movement pass. -/
def processWolvesBatch (cfg : WolfCfg) (w : World) (rs : List ℚ) : World × List ℚ :=
  let wolves := getWolfList w
  if wolves.length = 0 then (w, rs)
  else
    let w1 := agingPassWolves cfg w wolves
    let aged := wolves.map (ageWolfFn cfg.energyPerStep)
    let culled := cullWolves cfg w1 aged
    let w3 := processWolfHuntingBatch cfg culled.1 culled.2
    culled.2.foldl (wolfMovementStep cfg) (w3, rs)

/-- The three population keys tracked by `EcologicalAnalyzer` (source object
key order: grass, sheep, wolves). -/
inductive Species3 where
  | grass
  | sheep
  | wolves
  deriving DecidableEq, Repr

/-- One `populationHistory` row: `{ step, grass, sheep, wolves }`. -/
structure HistRow where
  step : Nat
  grass : Nat
  sheep : Nat
  wolves : Nat
  deriving DecidableEq, Repr

/-- The trend values of `detectTrend`. -/
inductive Trend where
  | increasing
  | decreasing
  | stable
  deriving DecidableEq, Repr

/-- One per-species trend state from `speciesStates` (`peakInTrend` and
`minInTrend` start out absent). -/
structure SpeciesTrendState where
  trend : Trend
  trendStartStep : Nat
  trendStartPopulation : Nat
  peakInTrend : Option Nat := none
  minInTrend : Option Nat := none
  deriving DecidableEq, Repr

/-- The `OscillationCycle.cycleType` values reachable from
`recordOscillationCycle`. -/
inductive CycleType where
  | growth_to_decline
  | decline_to_growth
  | near_extinction_recovery
  deriving DecidableEq, Repr

/-- An `OscillationCycle` record (duration and amplitude are differences, so
integers). -/
structure OscCycle where
  species : String
  cycleType : CycleType
  startStep : Nat
  endStep : Nat
  startPopulation : Nat
  endPopulation : Nat
  peakPopulation : Option Nat
  minPopulation : Option Nat
  duration : Int
  amplitude : Int
  triggerFactor : Option String
  deriving DecidableEq, Repr

/-- The `EcologicalAnalyzer` state touched by the oscillation path: the
population history, the shared cycle list and the three species states.  The
alert and extinction-analysis lists are omitted: `checkForAlerts` only
appends to them and nothing in the oscillation machinery reads them back. -/
structure Analyzer where
  populationHistory : List HistRow
  oscillationCycles : List OscCycle
  grassState : SpeciesTrendState
  sheepState : SpeciesTrendState
  wolvesState : SpeciesTrendState
  deriving DecidableEq, Repr

/-- `h[species]` lookup on a history row. -/
def histVal (h : HistRow) : Species3 → Nat
  | Species3.grass => h.grass
  | Species3.sheep => h.sheep
  | Species3.wolves => h.wolves

/-- `this.speciesStates[species]` read. -/
def stateOf (a : Analyzer) : Species3 → SpeciesTrendState
  | Species3.grass => a.grassState
  | Species3.sheep => a.sheepState
  | Species3.wolves => a.wolvesState

/-- Write-back of one species state (TS mutates the aliased state object). -/
def withState (a : Analyzer) : Species3 → SpeciesTrendState → Analyzer
  | Species3.grass, st => { a with grassState := st }
  | Species3.sheep, st => { a with sheepState := st }
  | Species3.wolves, st => { a with wolvesState := st }

/-- The `species === 'wolves' ? 'wolf' : species` rename on the stored
cycle. -/
def speciesName : Species3 → String
  | Species3.grass => "grass"
  | Species3.sheep => "sheep"
  | Species3.wolves => "wolf"

/-- Analyzer state right after the constructor: empty history and cycle list,
all three species stable from step 0. -/
def initAnalyzer : Analyzer :=
  { populationHistory := []
    oscillationCycles := []
    grassState := { trend := Trend.stable, trendStartStep := 0, trendStartPopulation := 0 }
    sheepState := { trend := Trend.stable, trendStartStep := 0, trendStartPopulation := 0 }
    wolvesState := { trend := Trend.stable, trendStartStep := 0, trendStartPopulation := 0 } }

/-- `EcologicalAnalyzer.detectTrend`: compare the average of the first two
and last two entries of the 5-step window; relative change beyond ±0.15
is a trend.  (The head average is nonzero in every reachable call here; at
zero the source would produce an infinite relative change instead of the
rational 0.) -/
def detectTrend (recent : List Nat) : Trend :=
  if recent.length < 3 then Trend.stable
  else
    let first : ℚ := ((recent.take 2).sum : ℚ) / 2
    let last : ℚ := ((recent.drop (recent.length - 2)).sum : ℚ) / 2
    let change := (last - first) / first
    if change > 15 / 100 then Trend.increasing
    else if change < -(15 / 100) then Trend.decreasing
    else Trend.stable

/-- `getRecentWolfPopulation` / `getRecentSheepPopulation`: average of the
chosen field over the last three history rows (0 on empty history). -/
def recentAvg (hist : List HistRow) (f : HistRow → Nat) : ℚ :=
  let recent := hist.drop (hist.length - 3)
  if recent.length = 0 then 0
  else (((recent.map f).sum : ℚ) / (recent.length : ℚ))

/-- `EcologicalAnalyzer.recordOscillationCycle`: classify the flip
(increasing→decreasing is `growth_to_decline`; decreasing→increasing is
`decline_to_growth`, reclassified as `near_extinction_recovery` when the
truthy `minInTrend` is below 10), attach the trigger factor, and push the
cycle when duration > 3 and amplitude > 5, keeping the last 50 cycles.
Returns the updated cycle list. -/
def recordOscillationCycle (a : Analyzer) (sp : Species3)
    (state : SpeciesTrendState) (currentPop step : Nat) (newTrend : Trend) :
    List OscCycle :=
  let duration : Int := (step : Int) - (state.trendStartStep : Int)
  let amplitude : Int :=
    ((state.peakInTrend.getD 0 : Nat) : Int) - ((state.minInTrend.getD 0 : Nat) : Int)
  let push := fun (ct : CycleType) (trigger : Option String) =>
    if duration > 3 ∧ amplitude > 5 then
      let cs := a.oscillationCycles ++
        [{ species := speciesName sp, cycleType := ct,
           startStep := state.trendStartStep, endStep := step,
           startPopulation := state.trendStartPopulation, endPopulation := currentPop,
           peakPopulation := state.peakInTrend, minPopulation := state.minInTrend,
           duration := duration, amplitude := amplitude, triggerFactor := trigger }]
      if cs.length > 50 then cs.drop 1 else cs
    else a.oscillationCycles
  match state.trend, newTrend with
  | Trend.increasing, Trend.decreasing =>
    push CycleType.growth_to_decline
      (if sp = Species3.sheep ∧ recentAvg a.populationHistory (fun h => h.wolves) > 20 then
        some ("Predation pressure from wolves")
      else if sp = Species3.wolves ∧ recentAvg a.populationHistory (fun h => h.sheep) < 50 then
        some ("Prey depletion")
      else if sp = Species3.grass ∧ recentAvg a.populationHistory (fun h => h.sheep) > 200 then
        some ("Overgrazing by sheep")
      else none)
  | Trend.decreasing, Trend.increasing =>
    if (match state.minInTrend with
        | some m => decide (¬(m = 0)) && decide (m < 10)
        | none => false) = true then
      push CycleType.near_extinction_recovery (some ("Recovery from near extinction"))
    else
      push CycleType.decline_to_growth
        (if sp = Species3.sheep ∧ recentAvg a.populationHistory (fun h => h.wolves) < 10 then
          some ("Reduced predation pressure")
        else if sp = Species3.wolves ∧ recentAvg a.populationHistory (fun h => h.sheep) > 100 then
          some ("Increased prey availability")
        else none)
  | _, _ => a.oscillationCycles

/-- `EcologicalAnalyzer.detectSpeciesOscillation`: below 5 rows of history
only the trend start markers move; otherwise the 5-row window trend is
computed, the truthy peak/min trackers absorb the current population, and a
trend flip away from stable records a cycle and resets the state. -/
def detectSpeciesOscillation (a : Analyzer) (sp : Species3)
    (currentPop step : Nat) : Analyzer :=
  let state := stateOf a sp
  if a.populationHistory.length < 5 then
    withState a sp { state with trendStartStep := step, trendStartPopulation := currentPop }
  else
    let recent := (a.populationHistory.drop (a.populationHistory.length - 5)).map
      (fun h => histVal h sp)
    let newTrend := detectTrend recent
    let peak1 : Option Nat :=
      match state.peakInTrend with
      | none => some currentPop
      | some p =>
        if p = 0 then some currentPop
        else if currentPop > p then some currentPop else some p
    let min1 : Option Nat :=
      match state.minInTrend with
      | none => some currentPop
      | some m =>
        if m = 0 then some currentPop
        else if currentPop < m then some currentPop else some m
    let state1 := { state with peakInTrend := peak1, minInTrend := min1 }
    if newTrend ≠ state.trend ∧ newTrend ≠ Trend.stable then
      withState { a with oscillationCycles :=
          recordOscillationCycle a sp state1 currentPop step newTrend } sp
        { trend := newTrend, trendStartStep := step, trendStartPopulation := currentPop,
          peakInTrend := some currentPop, minInTrend := some currentPop }
    else withState a sp state1

/-- `EcologicalAnalyzer.detectOscillations`: the three species in object key
order. -/
def detectOscillations (a : Analyzer) (step g s w : Nat) : Analyzer :=
  detectSpeciesOscillation
    (detectSpeciesOscillation (detectSpeciesOscillation a Species3.grass g step)
      Species3.sheep s step)
    Species3.wolves w step

/-- `EcologicalAnalyzer.recordPopulation`: push the row, keep the last 100,
then run oscillation detection.  (`checkForAlerts` runs after this and only
appends alerts, which are not modelled.) -/
def recordPopulation (a : Analyzer) (step g s w : Nat) : Analyzer :=
  let hist := a.populationHistory ++ [{ step := step, grass := g, sheep := s, wolves := w }]
  let hist1 := if hist.length > 100 then hist.drop 1 else hist
  detectOscillations { a with populationHistory := hist1 } step g s w

/-- The synthetic population series of the oscillation claim: rise by 100 per
tick for 20 ticks, then fall by 100 per tick for 20 ticks. -/
def c9pop (t : Nat) : Nat := if t ≤ 20 then 100 * t else 100 * (40 - t)

/-- History row at tick `t` when species `sp` follows the synthetic series
and the other two species hold at 100. -/
def c9row (sp : Species3) (t : Nat) : HistRow :=
  { step := t
    grass := if sp = Species3.grass then c9pop t else 100
    sheep := if sp = Species3.sheep then c9pop t else 100
    wolves := if sp = Species3.wolves then c9pop t else 100 }

/-- Feed the analyzer the first `n` ticks of the synthetic series for
species `sp`. -/
def c9feed (sp : Species3) : Nat → Analyzer
  | 0 => initAnalyzer
  | Nat.succ n =>
    recordPopulation (c9feed sp n) (n + 1) ((c9row sp (n + 1)).grass)
      ((c9row sp (n + 1)).sheep) ((c9row sp (n + 1)).wolves)

/-- Trigger factor of the recorded cycle: only the sheep run sees the
constant 100-wolf average exceed the predation-pressure bound of 20. -/
def c9trig : Species3 → Option String
  | Species3.sheep => some ("Predation pressure from wolves")
  | _ => none

/-- The single growth-to-decline cycle the synthetic run records at the
tick-24 flip. -/
def c9cyc (sp : Species3) : OscCycle :=
  { species := speciesName sp, cycleType := CycleType.growth_to_decline,
    startStep := 5, endStep := 24, startPopulation := 500, endPopulation := 1600,
    peakPopulation := some 2000, minPopulation := some 500,
    duration := 19, amplitude := 1500, triggerFactor := c9trig sp }

/-- Integer twin of `detectTrend` (the /2 averaging cancels in the relative
change, so only the two two-entry sums matter). -/
def detectTrendZ (recent : List Nat) : Trend :=
  if recent.length < 3 then Trend.stable
  else
    let s1 := (recent.take 2).sum
    let s2 := (recent.drop (recent.length - 2)).sum
    if s1 = 0 then Trend.stable
    else if 3 * (s1 : Int) < 20 * ((s2 : Int) - (s1 : Int)) then Trend.increasing
    else if 20 * ((s2 : Int) - (s1 : Int)) < -(3 * (s1 : Int)) then Trend.decreasing
    else Trend.stable

/-- Integer twin of the `recentAvg _ _ > c` comparison. -/
def avgGtB (hist : List HistRow) (f : HistRow → Nat) (c : Int) : Bool :=
  let recent := hist.drop (hist.length - 3)
  if recent.length = 0 then decide ((0 : Int) > c)
  else decide (c * (recent.length : Int) < ((recent.map f).sum : Int))

/-- Integer twin of the `recentAvg _ _ < c` comparison. -/
def avgLtB (hist : List HistRow) (f : HistRow → Nat) (c : Int) : Bool :=
  let recent := hist.drop (hist.length - 3)
  if recent.length = 0 then decide ((0 : Int) < c)
  else decide (((recent.map f).sum : Int) < c * (recent.length : Int))

/-- Twin of `recordOscillationCycle` with the average comparisons in
integers. -/
def recordOscillationCycleZ (a : Analyzer) (sp : Species3)
    (state : SpeciesTrendState) (currentPop step : Nat) (newTrend : Trend) :
    List OscCycle :=
  let duration : Int := (step : Int) - (state.trendStartStep : Int)
  let amplitude : Int :=
    ((state.peakInTrend.getD 0 : Nat) : Int) - ((state.minInTrend.getD 0 : Nat) : Int)
  let push := fun (ct : CycleType) (trigger : Option String) =>
    if duration > 3 ∧ amplitude > 5 then
      let cs := a.oscillationCycles ++
        [{ species := speciesName sp, cycleType := ct,
           startStep := state.trendStartStep, endStep := step,
           startPopulation := state.trendStartPopulation, endPopulation := currentPop,
           peakPopulation := state.peakInTrend, minPopulation := state.minInTrend,
           duration := duration, amplitude := amplitude, triggerFactor := trigger }]
      if cs.length > 50 then cs.drop 1 else cs
    else a.oscillationCycles
  match state.trend, newTrend with
  | Trend.increasing, Trend.decreasing =>
    push CycleType.growth_to_decline
      (if sp = Species3.sheep ∧ avgGtB a.populationHistory (fun h => h.wolves) 20 = true then
        some ("Predation pressure from wolves")
      else if sp = Species3.wolves ∧ avgLtB a.populationHistory (fun h => h.sheep) 50 = true then
        some ("Prey depletion")
      else if sp = Species3.grass ∧ avgGtB a.populationHistory (fun h => h.sheep) 200 = true then
        some ("Overgrazing by sheep")
      else none)
  | Trend.decreasing, Trend.increasing =>
    if (match state.minInTrend with
        | some m => decide (¬(m = 0)) && decide (m < 10)
        | none => false) = true then
      push CycleType.near_extinction_recovery (some ("Recovery from near extinction"))
    else
      push CycleType.decline_to_growth
        (if sp = Species3.sheep ∧ avgLtB a.populationHistory (fun h => h.wolves) 10 = true then
          some ("Reduced predation pressure")
        else if sp = Species3.wolves ∧ avgGtB a.populationHistory (fun h => h.sheep) 100 = true then
          some ("Increased prey availability")
        else none)
  | _, _ => a.oscillationCycles

/-- Twin of `detectSpeciesOscillation` over the integer comparisons. -/
def detectSpeciesOscillationZ (a : Analyzer) (sp : Species3)
    (currentPop step : Nat) : Analyzer :=
  let state := stateOf a sp
  if a.populationHistory.length < 5 then
    withState a sp { state with trendStartStep := step, trendStartPopulation := currentPop }
  else
    let recent := (a.populationHistory.drop (a.populationHistory.length - 5)).map
      (fun h => histVal h sp)
    let newTrend := detectTrendZ recent
    let peak1 : Option Nat :=
      match state.peakInTrend with
      | none => some currentPop
      | some p =>
        if p = 0 then some currentPop
        else if currentPop > p then some currentPop else some p
    let min1 : Option Nat :=
      match state.minInTrend with
      | none => some currentPop
      | some m =>
        if m = 0 then some currentPop
        else if currentPop < m then some currentPop else some m
    let state1 := { state with peakInTrend := peak1, minInTrend := min1 }
    if newTrend ≠ state.trend ∧ newTrend ≠ Trend.stable then
      withState { a with oscillationCycles :=
          recordOscillationCycleZ a sp state1 currentPop step newTrend } sp
        { trend := newTrend, trendStartStep := step, trendStartPopulation := currentPop,
          peakInTrend := some currentPop, minInTrend := some currentPop }
    else withState a sp state1

/-- Twin of `detectOscillations`. -/
def detectOscillationsZ (a : Analyzer) (step g s w : Nat) : Analyzer :=
  detectSpeciesOscillationZ
    (detectSpeciesOscillationZ (detectSpeciesOscillationZ a Species3.grass g step)
      Species3.sheep s step)
    Species3.wolves w step

/-- Twin of `recordPopulation`. -/
def recordPopulationZ (a : Analyzer) (step g s w : Nat) : Analyzer :=
  let hist := a.populationHistory ++ [{ step := step, grass := g, sheep := s, wolves := w }]
  let hist1 := if hist.length > 100 then hist.drop 1 else hist
  detectOscillationsZ { a with populationHistory := hist1 } step g s w

/-- Twin of `c9feed`. -/
def c9feedZ (sp : Species3) : Nat → Analyzer
  | 0 => initAnalyzer
  | Nat.succ n =>
    recordPopulationZ (c9feedZ sp n) (n + 1) ((c9row sp (n + 1)).grass)
      ((c9row sp (n + 1)).sheep) ((c9row sp (n + 1)).wolves)

theorem processDeathsList_survivors (lifespan hungerThreshold : Nat)
    (os : List Mortal) :
    (processDeathsList lifespan hungerThreshold os).1 =
      os.filter (fun o => o.isAlive && (deathCheck lifespan hungerThreshold o).isNone) := by
  induction os with
  | nil => rfl
  | cons o os ih =>
    simp only [processDeathsList, List.filter]
    cases halive : o.isAlive with
    | false => simp [halive, ih]
    | true =>
      cases hd : deathCheck lifespan hungerThreshold o with
      | some c => simp [halive, hd, ih]
      | none => simp [halive, hd, ih]

theorem processDeathsList_records (lifespan hungerThreshold : Nat)
    (os : List Mortal) :
    (processDeathsList lifespan hungerThreshold os).2 =
      os.filterMap (fun o =>
        if o.isAlive = true then
          (deathCheck lifespan hungerThreshold o).map (fun c => (o.id, c))
        else none) := by
  induction os with
  | nil => rfl
  | cons o os ih =>
    simp only [processDeathsList, List.filterMap]
    cases halive : o.isAlive with
    | false => simp [halive, ih]
    | true =>
      cases hd : deathCheck lifespan hungerThreshold o with
      | some c => simp [halive, hd, ih]
      | none => simp [halive, hd, ih]

/-- C1: for every sheep and wolf processed in a tick's cull, the death
conditions are checked in the fixed order age (age ≥ lifespan), then
starvation (energy ≤ 0), then hunger (hunger ≥ 2×hungerThreshold); only the
first true condition is recorded as the cause, and an organism for which none
of the three holds survives the cull (it is kept by the filter and no record
is written for it). -/
theorem C1_death_cull_fixed_order (lifespan hungerThreshold : Nat)
    (o : Mortal) (halive : o.isAlive = true) :
    (o.age ≥ lifespan → deathCheck lifespan hungerThreshold o = some Cause.age) ∧
    (o.age < lifespan → o.energy ≤ 0 →
      deathCheck lifespan hungerThreshold o = some Cause.starvation) ∧
    (o.age < lifespan → 0 < o.energy → o.hunger ≥ hungerThreshold * 2 →
      deathCheck lifespan hungerThreshold o = some Cause.hunger) ∧
    (o.age < lifespan → 0 < o.energy → o.hunger < hungerThreshold * 2 →
      deathCheck lifespan hungerThreshold o = none) ∧
    (∀ os : List Mortal,
      (processDeathsList lifespan hungerThreshold os).1 =
        os.filter (fun m => m.isAlive && (deathCheck lifespan hungerThreshold m).isNone) ∧
      (processDeathsList lifespan hungerThreshold os).2 =
        os.filterMap (fun m =>
          if m.isAlive = true then
            (deathCheck lifespan hungerThreshold m).map (fun c => (m.id, c))
          else none)) := by
  refine ⟨?_, ?_, ?_, ?_, ?_⟩
  · intro hage
    simp [deathCheck, hage]
  · intro hage henergy
    simp [deathCheck, Nat.not_le.mpr hage, henergy]
  · intro hage henergy hhunger
    simp [deathCheck, Nat.not_le.mpr hage, not_le.mpr henergy, hhunger]
  · intro hage henergy hhunger
    simp [deathCheck, Nat.not_le.mpr hage, not_le.mpr henergy, Nat.not_le.mpr hhunger]
  · intro os
    exact ⟨processDeathsList_survivors lifespan hungerThreshold os,
      processDeathsList_records lifespan hungerThreshold os⟩

/-- Witness for C1 at a concrete organism: a live sheep with age 2 < 100,
energy 1 > 0 and hunger 3 < 2×8 survives the cull. -/
theorem C1_death_cull_fixed_order_witness :
    deathCheck 100 8
      { id := "s0", x := 1, y := 1, energy := 1, age := 2, hunger := 3, isAlive := true } = none := by
  have h := C1_death_cull_fixed_order 100 8
    { id := "s0", x := 1, y := 1, energy := 1, age := 2, hunger := 3, isAlive := true } rfl
  exact h.2.2.2.1 (by norm_num) (by norm_num) (by norm_num)

theorem listUpdate_length {α : Type} (l : List α) (n : Nat) (f : α → α) :
    (listUpdate l n f).length = l.length := by
  induction l generalizing n with
  | nil => rfl
  | cons a as ih =>
    cases n with
    | zero => rfl
    | succ n => simp [listUpdate, ih]

theorem listUpdate_get_ne {α : Type} (l : List α) (n m : Nat) (f : α → α)
    (h : n ≠ m) : (listUpdate l n f)[m]? = l[m]? := by
  induction l generalizing n m with
  | nil => rfl
  | cons a as ih =>
    cases n with
    | zero =>
      cases m with
      | zero => exact absurd rfl h
      | succ m => rfl
    | succ n =>
      cases m with
      | zero => simp [listUpdate]
      | succ m =>
        simp only [listUpdate, List.getElem?_cons_succ]
        exact ih n m (fun hnm => h (by omega))

theorem listUpdate_get_eq {α : Type} (l : List α) (n : Nat) (f : α → α) :
    (listUpdate l n f)[n]? = (l[n]?).map f := by
  induction l generalizing n with
  | nil => rfl
  | cons a as ih =>
    cases n with
    | zero => simp [listUpdate]
    | succ n => simpa [listUpdate] using ih n

theorem isValidPosition_iff (w : World) (a b : Int) :
    isValidPosition w a b = true ↔
      0 ≤ a ∧ a < (w.width : Int) ∧ 0 ≤ b ∧ b < (w.height : Int) := by
  simp [isValidPosition, and_assoc]

theorem isValidPosition_modifyCell (w : World) (x y a b : Int) (f : Cell → Cell) :
    isValidPosition (modifyCell w x y f) a b = isValidPosition w a b := rfl

theorem getCell_modifyCell_ne (w : World) (x y a b : Int) (f : Cell → Cell)
    (hxy : isValidPosition w x y = true) (h : ¬(a = x ∧ b = y)) :
    getCell (modifyCell w x y f) a b = getCell w a b := by
  unfold getCell
  rw [isValidPosition_modifyCell]
  by_cases hv : isValidPosition w a b = true
  · simp only [hv, if_pos]
    obtain ⟨hx0, hxw, hy0, hyh⟩ := (isValidPosition_iff w x y).mp hxy
    obtain ⟨ha0, haw, hb0, hbh⟩ := (isValidPosition_iff w a b).mp hv
    have hcells : (modifyCell w x y f).cells =
        listUpdate w.cells x.toNat (fun col => listUpdate col y.toNat f) := rfl
    rw [hcells]
    by_cases hnat : x.toNat = a.toNat
    · have hax : a = x := by omega
      have hby : b ≠ y := fun hby => h ⟨hax, hby⟩
      have hbnat : y.toNat ≠ b.toNat := by omega
      rw [← hnat, listUpdate_get_eq]
      cases hcol : w.cells[x.toNat]? with
      | none => rfl
      | some col =>
        simp only [Option.map_some, Option.some_bind]
        exact listUpdate_get_ne col y.toNat b.toNat f hbnat
    · rw [listUpdate_get_ne _ _ _ _ hnat]
  · simp [hv]

theorem getCell_modifyCell_eq (w : World) (x y : Int) (f : Cell → Cell)
    (hv : isValidPosition w x y = true) :
    getCell (modifyCell w x y f) x y = (getCell w x y).map f := by
  unfold getCell
  rw [isValidPosition_modifyCell]
  simp only [hv, if_pos]
  have hcells : (modifyCell w x y f).cells =
      listUpdate w.cells x.toNat (fun col => listUpdate col y.toNat f) := rfl
  rw [hcells, listUpdate_get_eq]
  cases hcol : w.cells[x.toNat]? with
  | none => rfl
  | some col =>
    simp only [Option.map_some, Option.some_bind]
    exact listUpdate_get_eq col y.toNat f

theorem deathStats_modifyCell (w : World) (x y : Int) (f : Cell → Cell) :
    (modifyCell w x y f).deathStats = w.deathStats := rfl

theorem recordDeath_cells (w : World) (o : OrganismSnapshot) (c : Cause) (s : String) :
    (recordDeath w o c s).cells = w.cells := rfl

theorem bumpCause_totalDeaths (c : Cause) (d : DeathStatistics) :
    (bumpCause c d).totalDeaths = d.totalDeaths := by
  cases c <;> rfl

theorem bumpType_totalDeaths (t : String) (d : DeathStatistics) :
    (bumpType t d).totalDeaths = d.totalDeaths := by
  unfold bumpType
  split
  · rfl
  · split
    · rfl
    · split <;> rfl

theorem bumpCause_recentDeaths (c : Cause) (d : DeathStatistics) :
    (bumpCause c d).recentDeaths = d.recentDeaths := by
  cases c <;> rfl

theorem bumpType_recentDeaths (t : String) (d : DeathStatistics) :
    (bumpType t d).recentDeaths = d.recentDeaths := by
  unfold bumpType
  split
  · rfl
  · split
    · rfl
    · split <;> rfl

theorem recordDeath_totalDeaths (w : World) (o : OrganismSnapshot) (c : Cause) (s : String) :
    (recordDeath w o c s).deathStats.totalDeaths = w.deathStats.totalDeaths + 1 := by
  simp [recordDeath, bumpType_totalDeaths, bumpCause_totalDeaths]

theorem applyContent_grass (ct : CellContent) (c : Cell) :
    (applyContent ct c).grass = match ct.grass with
      | some g => some g
      | none => c.grass := by
  unfold applyContent
  cases ct.grass <;> cases ct.sheep <;> cases ct.wolf <;>
    cases ct.temperature <;> cases ct.season <;> rfl

theorem applyContent_sheep (ct : CellContent) (c : Cell) :
    (applyContent ct c).sheep = match ct.sheep with
      | some s => some s
      | none => c.sheep := by
  unfold applyContent
  cases ct.grass <;> cases ct.sheep <;> cases ct.wolf <;>
    cases ct.temperature <;> cases ct.season <;> rfl

theorem applyContent_wolf (ct : CellContent) (c : Cell) :
    (applyContent ct c).wolf = match ct.wolf with
      | some v => some v
      | none => c.wolf := by
  unfold applyContent
  cases ct.grass <;> cases ct.sheep <;> cases ct.wolf <;>
    cases ct.temperature <;> cases ct.season <;> rfl

/-- C5 counterexample: in a 1×1 world whose single cell holds both a grass
and a sheep, `clearCellContent` removes the grass as well — it does not
remove only a single species' reference, contradicting the claim that
co-located organisms of the other species are left unchanged. -/
theorem C5_counterexample :
    (grassAt ((setCellContent (mkWorld 1 1) 0 0
        { grass := some sampleGrass, sheep := some sampleSheep }).2) 0 0).isSome = true ∧
    (sheepAt ((setCellContent (mkWorld 1 1) 0 0
        { grass := some sampleGrass, sheep := some sampleSheep }).2) 0 0).isSome = true ∧
    grassAt (clearCellContent ((setCellContent (mkWorld 1 1) 0 0
        { grass := some sampleGrass, sheep := some sampleSheep }).2) 0 0).2 0 0 = none := by
  refine ⟨rfl, rfl, rfl⟩

/-- C5 amended: for every in-bounds coordinate, `setCellContent` merges only
the species references supplied in the partial content, leaving the cell's
other species and all other cells unchanged; `clearCellContent`, however,
removes ALL THREE species references (grass, sheep and wolf) from the
addressed cell at once, leaving other cells unchanged. -/
theorem C5_cell_content_ops (w : World) (x y : Int) (ct : CellContent)
    (hv : isValidPosition w x y = true) :
    ((setCellContent w x y ct).1 = true ∧ (clearCellContent w x y).1 = true) ∧
    (getCell (setCellContent w x y ct).2 x y = (getCell w x y).map (applyContent ct)) ∧
    (∀ c : Cell,
      (ct.grass = none → (applyContent ct c).grass = c.grass) ∧
      (ct.sheep = none → (applyContent ct c).sheep = c.sheep) ∧
      (ct.wolf = none → (applyContent ct c).wolf = c.wolf) ∧
      (∀ g, ct.grass = some g → (applyContent ct c).grass = some g) ∧
      (∀ s, ct.sheep = some s → (applyContent ct c).sheep = some s) ∧
      (∀ v, ct.wolf = some v → (applyContent ct c).wolf = some v)) ∧
    (∀ a b : Int, ¬(a = x ∧ b = y) →
      getCell (setCellContent w x y ct).2 a b = getCell w a b) ∧
    (∀ c : Cell, getCell w x y = some c →
      getCell (clearCellContent w x y).2 x y =
        some { c with grass := none, sheep := none, wolf := none }) ∧
    (∀ a b : Int, ¬(a = x ∧ b = y) →
      getCell (clearCellContent w x y).2 a b = getCell w a b) := by
  refine ⟨⟨?_, ?_⟩, ?_, ?_, ?_, ?_, ?_⟩
  · simp [setCellContent, hv]
  · simp [clearCellContent, hv]
  · simp only [setCellContent, hv, if_pos]
    exact getCell_modifyCell_eq w x y (applyContent ct) hv
  · intro c
    refine ⟨?_, ?_, ?_, ?_, ?_, ?_⟩
    · intro h
      rw [applyContent_grass, h]
    · intro h
      rw [applyContent_sheep, h]
    · intro h
      rw [applyContent_wolf, h]
    · intro g h
      rw [applyContent_grass, h]
    · intro s h
      rw [applyContent_sheep, h]
    · intro v h
      rw [applyContent_wolf, h]
  · intro a b hne
    simp only [setCellContent, hv, if_pos]
    exact getCell_modifyCell_ne w x y a b (applyContent ct) hv hne
  · intro c hc
    simp only [clearCellContent, hv, if_pos]
    rw [getCell_modifyCell_eq w x y _ hv, hc]
    rfl
  · intro a b hne
    simp only [clearCellContent, hv, if_pos]
    exact getCell_modifyCell_ne w x y a b _ hv hne

/-- Witness for C5 (amended) at a concrete world: the merge of a sheep into
cell (0, 0) of a fresh 2×2 world succeeds, and clearing that cell succeeds. -/
theorem C5_cell_content_ops_witness :
    (setCellContent (mkWorld 2 2) 0 0 { sheep := some sampleSheep }).1 = true ∧
    (clearCellContent (mkWorld 2 2) 0 0).1 = true := by
  have h := C5_cell_content_ops (mkWorld 2 2) 0 0 { sheep := some sampleSheep } (by decide)
  exact h.1

/-- C4 counterexample: with the production season length 150, at tick 750
(the first tick of the second year's summer span under the cyclic reading)
the code computes spring, not the summer that `t mod (seasonLength×4)`
prescribes — the seasonal cycle does not repeat as t grows. -/
theorem C4_counterexample :
    updateSeason 150 750 = Season.spring ∧
    cyclicSeason 150 750 = Season.summer ∧
    (incrementStep 150 { mkWorld 1 1 with currentStep := 749 }).season = Season.spring ∧
    Season.spring ≠ Season.summer := by
  refine ⟨by decide, by decide, ?_, by decide⟩
  rfl

/-- C4 amended: advancing the tick counter recomputes the season from the
raw tick count, not from `t mod (seasonLength×4)`: during the first
`seasonLength×4` ticks the four seasons run exactly once, in the spans the
cyclic formula prescribes, and from tick `seasonLength×4` onwards the season
is spring forever — the seasonal cycle does not repeat. -/
theorem C4_season_no_cycle (seasonLength t : Nat) (hL : 0 < seasonLength) :
    (t < seasonLength * 4 → updateSeason seasonLength t = cyclicSeason seasonLength t) ∧
    (seasonLength * 4 ≤ t → updateSeason seasonLength t = Season.spring) ∧
    (∀ w : World, (incrementStep seasonLength w).currentStep = w.currentStep + 1 ∧
      (incrementStep seasonLength w).season =
        updateSeason seasonLength (w.currentStep + 1) ∧
      (incrementStep seasonLength w).temperature =
        updateTemperature (updateSeason seasonLength (w.currentStep + 1))) := by
  refine ⟨?_, ?_, ?_⟩
  · intro h4
    have hmod : t % (seasonLength * 4) = t := Nat.mod_eq_of_lt h4
    unfold updateSeason cyclicSeason
    simp only [hmod]
    split
    · rfl
    · split
      · rfl
      · split
        · rfl
        · simp [h4]
  · intro h4
    unfold updateSeason
    have h1 : ¬ t < seasonLength := by omega
    have h2 : ¬ t < seasonLength * 2 := by omega
    have h3 : ¬ t < seasonLength * 3 := by omega
    have h4n : ¬ t < seasonLength * 4 := by omega
    simp [h1, h2, h3, h4n]
  · intro w
    exact ⟨rfl, rfl, rfl⟩

/-- Witness for C4 (amended) at season length 1 and tick 2: within the first
year the code agrees with the cyclic formula (autumn), and at tick 7 the code
yields spring. -/
theorem C4_season_no_cycle_witness :
    updateSeason 1 2 = cyclicSeason 1 2 ∧ updateSeason 1 7 = Season.spring := by
  have h2 := C4_season_no_cycle 1 2 (by decide)
  have h7 := C4_season_no_cycle 1 7 (by decide)
  exact ⟨h2.1 (by decide), h7.2.1 (by decide)⟩

theorem cellInv_iff (x y : Nat) (c : Cell) :
    cellInv x y c = true ↔
      (∀ g, c.grass = some g → g.isAlive = true ∧ g.x = (x : Int) ∧ g.y = (y : Int)) ∧
      (∀ s, c.sheep = some s → s.isAlive = true ∧ s.x = (x : Int) ∧ s.y = (y : Int)) ∧
      (∀ v, c.wolf = some v → v.isAlive = true ∧ v.x = (x : Int) ∧ v.y = (y : Int)) := by
  unfold cellInv
  cases c.grass <;> cases c.sheep <;> cases c.wolf <;>
    simp [Bool.and_eq_true, beq_iff_eq, and_assoc]

theorem colInv_get (x y0 : Nat) (col : List Cell) (h : colInv x y0 col = true)
    (m : Nat) (c : Cell) (hc : col[m]? = some c) :
    cellInv x (y0 + m) c = true := by
  induction col generalizing y0 m with
  | nil => simp at hc
  | cons c0 cs ih =>
    rw [colInv, Bool.and_eq_true] at h
    cases m with
    | zero =>
      simp at hc
      subst hc
      simpa using h.1
    | succ m =>
      simp only [List.getElem?_cons_succ] at hc
      have := ih (y0 + 1) h.2 m hc
      simpa [Nat.add_assoc, Nat.add_comm 1 m] using this

theorem colInv_listUpdate (x y0 m : Nat) (col : List Cell) (g : Cell → Cell)
    (h : colInv x y0 col = true)
    (hg : ∀ c, col[m]? = some c → cellInv x (y0 + m) (g c) = true) :
    colInv x y0 (listUpdate col m g) = true := by
  induction col generalizing y0 m with
  | nil => simpa [listUpdate] using h
  | cons c0 cs ih =>
    rw [colInv, Bool.and_eq_true] at h
    cases m with
    | zero =>
      rw [listUpdate, colInv, Bool.and_eq_true]
      refine ⟨?_, h.2⟩
      have := hg c0 (by simp)
      simpa using this
    | succ m =>
      rw [listUpdate, colInv, Bool.and_eq_true]
      refine ⟨h.1, ?_⟩
      refine ih (y0 + 1) m h.2 (fun c hc => ?_)
      have := hg c (by simpa using hc)
      simpa [Nat.add_assoc, Nat.add_comm 1 m] using this

theorem gridInv_get (h x0 : Nat) (cols : List (List Cell))
    (hg : gridInv h x0 cols = true) (n : Nat) (col : List Cell)
    (hc : cols[n]? = some col) :
    col.length = h ∧ colInv (x0 + n) 0 col = true := by
  induction cols generalizing x0 n with
  | nil => simp at hc
  | cons c0 cs ih =>
    rw [gridInv, Bool.and_eq_true, Bool.and_eq_true] at hg
    cases n with
    | zero =>
      simp at hc
      subst hc
      exact ⟨by simpa [Nat.beq_eq] using hg.1.1, by simpa using hg.1.2⟩
    | succ n =>
      simp only [List.getElem?_cons_succ] at hc
      have := ih (x0 + 1) hg.2 n hc
      simpa [Nat.add_assoc, Nat.add_comm 1 n] using this

theorem gridInv_listUpdate (h x0 n : Nat) (cols : List (List Cell))
    (F : List Cell → List Cell) (hg : gridInv h x0 cols = true)
    (hF : ∀ col, cols[n]? = some col →
      (((F col).length == h) && colInv (x0 + n) 0 (F col)) = true) :
    gridInv h x0 (listUpdate cols n F) = true := by
  induction cols generalizing x0 n with
  | nil => simpa [listUpdate] using hg
  | cons c0 cs ih =>
    rw [gridInv, Bool.and_eq_true, Bool.and_eq_true] at hg
    cases n with
    | zero =>
      rw [listUpdate, gridInv, Bool.and_eq_true, Bool.and_eq_true]
      have := hF c0 (by simp)
      rw [Bool.and_eq_true] at this
      exact ⟨⟨this.1, by simpa using this.2⟩, hg.2⟩
    | succ n =>
      rw [listUpdate, gridInv, Bool.and_eq_true, Bool.and_eq_true]
      refine ⟨hg.1, ?_⟩
      refine ih (x0 + 1) n hg.2 (fun col hc => ?_)
      have := hF col (by simpa using hc)
      simpa [Nat.add_assoc, Nat.add_comm 1 n] using this

theorem getCell_valid (w : World) (x y : Int) (c : Cell)
    (h : getCell w x y = some c) : isValidPosition w x y = true := by
  unfold getCell at h
  by_cases hv : isValidPosition w x y = true
  · exact hv
  · simp [hv] at h

theorem worldInv_getCell (w : World) (hinv : worldInv w = true)
    (x y : Int) (c : Cell) (h : getCell w x y = some c) :
    cellInv x.toNat y.toNat c = true := by
  have hv := getCell_valid w x y c h
  unfold getCell at h
  rw [hv, if_pos rfl] at h
  rw [worldInv, Bool.and_eq_true] at hinv
  cases hcol : w.cells[x.toNat]? with
  | none => rw [hcol] at h; simp at h
  | some col =>
    rw [hcol] at h
    simp only [Option.some_bind] at h
    have hcinv := gridInv_get w.height 0 w.cells hinv.2 x.toNat col hcol
    have := colInv_get x.toNat 0 col (by simpa using hcinv.2) y.toNat c h
    simpa using this

theorem worldInv_modifyCell (w : World) (x y : Int) (f : Cell → Cell)
    (hv : isValidPosition w x y = true)
    (hf : ∀ c, cellInv x.toNat y.toNat c = true → cellInv x.toNat y.toNat (f c) = true)
    (hinv : worldInv w = true) : worldInv (modifyCell w x y f) = true := by
  rw [worldInv, Bool.and_eq_true] at hinv
  rw [worldInv, Bool.and_eq_true]
  constructor
  · show ((listUpdate w.cells x.toNat _).length == w.width) = true
    rw [listUpdate_length]
    exact hinv.1
  · show gridInv w.height 0 (listUpdate w.cells x.toNat
      (fun col => listUpdate col y.toNat f)) = true
    refine gridInv_listUpdate w.height 0 x.toNat w.cells _ hinv.2 (fun col hc => ?_)
    have hcol := gridInv_get w.height 0 w.cells hinv.2 x.toNat col hc
    rw [Bool.and_eq_true]
    constructor
    · rw [listUpdate_length]
      simp [hcol.1]
    · refine colInv_listUpdate (0 + x.toNat) 0 y.toNat col f ?_ (fun c hcc => ?_)
      · simpa using hcol.2
      · have hcell := colInv_get x.toNat 0 col (by simpa using hcol.2) y.toNat c hcc
        have := hf c (by simpa using hcell)
        simpa using this

theorem worldInv_setCellContent (w : World) (x y : Int) (ct : CellContent)
    (hv : isValidPosition w x y = true)
    (hg : ∀ g, ct.grass = some g → g.isAlive = true ∧ g.x = x ∧ g.y = y)
    (hs : ∀ s, ct.sheep = some s → s.isAlive = true ∧ s.x = x ∧ s.y = y)
    (hw : ∀ v, ct.wolf = some v → v.isAlive = true ∧ v.x = x ∧ v.y = y)
    (hinv : worldInv w = true) : worldInv (setCellContent w x y ct).2 = true := by
  obtain ⟨hx0, hxw, hy0, hyh⟩ := (isValidPosition_iff w x y).mp hv
  have hxn : ((x.toNat : Int)) = x := Int.toNat_of_nonneg hx0
  have hyn : ((y.toNat : Int)) = y := Int.toNat_of_nonneg hy0
  rw [setCellContent, if_pos hv]
  refine worldInv_modifyCell w x y (applyContent ct) hv (fun c hc => ?_) hinv
  rw [cellInv_iff] at hc ⊢
  refine ⟨?_, ?_, ?_⟩
  · intro g hgc
    rw [applyContent_grass] at hgc
    cases hctg : ct.grass with
    | some g0 =>
      rw [hctg] at hgc
      obtain ⟨ha, hgx, hgy⟩ := hg g0 hctg
      cases hgc
      exact ⟨ha, by rw [hgx, hxn], by rw [hgy, hyn]⟩
    | none =>
      rw [hctg] at hgc
      exact hc.1 g hgc
  · intro s hsc
    rw [applyContent_sheep] at hsc
    cases hcts : ct.sheep with
    | some s0 =>
      rw [hcts] at hsc
      obtain ⟨ha, hsx, hsy⟩ := hs s0 hcts
      cases hsc
      exact ⟨ha, by rw [hsx, hxn], by rw [hsy, hyn]⟩
    | none =>
      rw [hcts] at hsc
      exact hc.2.1 s hsc
  · intro v hvc
    rw [applyContent_wolf] at hvc
    cases hctv : ct.wolf with
    | some v0 =>
      rw [hctv] at hvc
      obtain ⟨ha, hvx, hvy⟩ := hw v0 hctv
      cases hvc
      exact ⟨ha, by rw [hvx, hxn], by rw [hvy, hyn]⟩
    | none =>
      rw [hctv] at hvc
      exact hc.2.2 v hvc

theorem findSome?_eq_some_mem {α β : Type} {l : List α} {f : α → Option β} {b : β}
    (h : l.findSome? f = some b) : ∃ a, a ∈ l ∧ f a = some b := by
  induction l with
  | nil => simp [List.findSome?] at h
  | cons a as ih =>
    rw [List.findSome?_cons] at h
    cases hfa : f a with
    | some b0 =>
      rw [hfa] at h
      have h1 : some b0 = some b := h
      refine ⟨a, List.mem_cons_self a as, ?_⟩
      rw [hfa]
      exact h1
    | none =>
      rw [hfa] at h
      have h1 : as.findSome? f = some b := h
      obtain ⟨a0, ha0, hfa0⟩ := ih h1
      exact ⟨a0, List.mem_cons_of_mem a ha0, hfa0⟩

theorem findNearbyEmptyCell_spec (w : World) (x y : Int) (radius : Nat)
    (p : Int × Int) (h : findNearbyEmptyCell w x y radius = some p) :
    isValidPosition w p.1 p.2 = true ∧
    ∃ c, getCell w p.1 p.2 = some c ∧ c.sheep = none ∧ c.wolf = none := by
  obtain ⟨r, _, hr⟩ := findSome?_eq_some_mem h
  obtain ⟨d, _, hd⟩ := findSome?_eq_some_mem hr
  simp only at hd
  cases hc : getCell w (x + d.1) (y + d.2) with
  | none =>
    rw [hc] at hd
    have h1 : (none : Option (Int × Int)) = some p := hd
    simp at h1
  | some cell =>
    rw [hc] at hd
    have h1 : (if cell.sheep = none ∧ cell.wolf = none then
        some (x + d.1, y + d.2) else none) = some p := hd
    by_cases hempty : cell.sheep = none ∧ cell.wolf = none
    · rw [if_pos hempty] at h1
      cases h1
      exact ⟨getCell_valid w _ _ cell hc, cell, hc, hempty⟩
    · rw [if_neg hempty] at h1
      simp at h1

theorem worldInv_moveSheep (w : World) (s : Sheep) (newX newY : Int)
    (hinv : worldInv w = true) (halive : s.isAlive = true)
    (hvNew : isValidPosition w newX newY = true) :
    worldInv (moveSheep w s newX newY).1 = true := by
  unfold moveSheep
  cases hold : getCell w s.x s.y with
  | none =>
    simp only [hold]
    exact worldInv_setCellContent w newX newY _ hvNew
      (by intro g hg; simp at hg)
      (by intro s1 hs1; cases hs1; exact ⟨halive, rfl, rfl⟩)
      (by intro v hv; simp at hv)
      hinv
  | some c0 =>
    simp only [hold]
    have hvOld := getCell_valid w s.x s.y c0 hold
    have hinv1 : worldInv (modifyCell w s.x s.y (fun c => { c with sheep := none })) = true := by
      refine worldInv_modifyCell w s.x s.y _ hvOld (fun c hc => ?_) hinv
      rw [cellInv_iff] at hc ⊢
      exact ⟨hc.1, by intro s1 hs1; simp at hs1, hc.2.2⟩
    have hvNew1 : isValidPosition
        (modifyCell w s.x s.y (fun c => { c with sheep := none })) newX newY = true := by
      rw [isValidPosition_modifyCell]
      exact hvNew
    exact worldInv_setCellContent _ newX newY _ hvNew1
      (by intro g hg; simp at hg)
      (by intro s1 hs1; cases hs1; exact ⟨halive, rfl, rfl⟩)
      (by intro v hv; simp at hv)
      hinv1

theorem worldInv_moveWolf (w : World) (v : Wolf) (newX newY : Int)
    (hinv : worldInv w = true) (halive : v.isAlive = true)
    (hvNew : isValidPosition w newX newY = true) :
    worldInv (moveWolf w v newX newY).1 = true := by
  unfold moveWolf
  cases hold : getCell w v.x v.y with
  | none =>
    simp only [hold]
    exact worldInv_setCellContent w newX newY _ hvNew
      (by intro g hg; simp at hg)
      (by intro s1 hs1; simp at hs1)
      (by intro v1 hv1; cases hv1; exact ⟨halive, rfl, rfl⟩)
      hinv
  | some c0 =>
    simp only [hold]
    have hvOld := getCell_valid w v.x v.y c0 hold
    have hinv1 : worldInv (modifyCell w v.x v.y (fun c => { c with wolf := none })) = true := by
      refine worldInv_modifyCell w v.x v.y _ hvOld (fun c hc => ?_) hinv
      rw [cellInv_iff] at hc ⊢
      exact ⟨hc.1, hc.2.1, by intro v1 hv1; simp at hv1⟩
    have hvNew1 : isValidPosition
        (modifyCell w v.x v.y (fun c => { c with wolf := none })) newX newY = true := by
      rw [isValidPosition_modifyCell]
      exact hvNew
    exact worldInv_setCellContent _ newX newY _ hvNew1
      (by intro g hg; simp at hg)
      (by intro s1 hs1; simp at hs1)
      (by intro v1 hv1; cases hv1; exact ⟨halive, rfl, rfl⟩)
      hinv1

theorem worldInv_createOffspringSheep (w : World) (parent : Sheep)
    (currentStep cfgLifespan : Nat) (variation r1 r2 r3 : ℚ)
    (hinv : worldInv w = true) :
    worldInv (createOffspringSheep w parent currentStep cfgLifespan variation r1 r2 r3).1 = true := by
  unfold createOffspringSheep
  cases hfind : findNearbyEmptyCell w parent.x parent.y 2 with
  | none => exact hinv
  | some loc =>
    simp only
    have hspec := findNearbyEmptyCell_spec w parent.x parent.y 2 loc hfind
    exact worldInv_setCellContent w loc.1 loc.2 _ hspec.1
      (by intro g hg; simp at hg)
      (by intro s1 hs1; cases hs1; exact ⟨rfl, rfl, rfl⟩)
      (by intro v hv; simp at hv)
      hinv

theorem worldInv_createSheepOffspringStep (w : World) (p1 : Sheep) (r1 r2 : ℚ)
    (currentStep : Nat) (hinv : worldInv w = true) :
    worldInv (createSheepOffspringStep w p1 r1 r2 currentStep) = true := by
  unfold createSheepOffspringStep
  simp only []
  split
  next hv =>
    split
    next cell heq =>
      split
      next hempty =>
        exact worldInv_setCellContent w _ _ _ hv
          (by intro g hg; simp at hg)
          (by intro s1 hs1; cases hs1; exact ⟨rfl, rfl, rfl⟩)
          (by intro v hvv; simp at hvv)
          hinv
      next hempty => exact hinv
    next heq => exact hinv
  next hv => exact hinv

/-- C2: after seeding and after every tick, every organism stored in the
grid is alive, its stored position equals its cell's coordinates and lies in
bounds (0 ≤ x < width, 0 ≤ y < height), and each cell holds at most one
organism of each species (one Option slot per species); and the operations
that move or create organisms — `moveOrganism` for sheep and wolves, birth
placement through `findNearbyEmptyCell`/`createOffspring`, and the
StepProcessor's `createSheepOffspring` — preserve this invariant. -/
theorem C2_position_occupancy_invariant :
    (∀ w : World, worldInv w = true → ∀ x y : Int, ∀ c : Cell, getCell w x y = some c →
      (∀ g, c.grass = some g → g.isAlive = true ∧ g.x = x ∧ g.y = y ∧
        isValidPosition w g.x g.y = true) ∧
      (∀ s, c.sheep = some s → s.isAlive = true ∧ s.x = x ∧ s.y = y ∧
        isValidPosition w s.x s.y = true) ∧
      (∀ v, c.wolf = some v → v.isAlive = true ∧ v.x = x ∧ v.y = y ∧
        isValidPosition w v.x v.y = true)) ∧
    (∀ (w : World) (s : Sheep) (newX newY : Int), worldInv w = true →
      s.isAlive = true → isValidPosition w newX newY = true →
      worldInv (moveSheep w s newX newY).1 = true) ∧
    (∀ (w : World) (v : Wolf) (newX newY : Int), worldInv w = true →
      v.isAlive = true → isValidPosition w newX newY = true →
      worldInv (moveWolf w v newX newY).1 = true) ∧
    (∀ (w : World) (parent : Sheep) (currentStep cfgLifespan : Nat)
      (variation r1 r2 r3 : ℚ), worldInv w = true →
      worldInv (createOffspringSheep w parent currentStep cfgLifespan variation r1 r2 r3).1 = true) ∧
    (∀ (w : World) (p1 : Sheep) (r1 r2 : ℚ) (currentStep : Nat), worldInv w = true →
      worldInv (createSheepOffspringStep w p1 r1 r2 currentStep) = true) := by
  refine ⟨?_, ?_, ?_, ?_, ?_⟩
  · intro w hinv x y c hc
    have hv := getCell_valid w x y c hc
    obtain ⟨hx0, hxw, hy0, hyh⟩ := (isValidPosition_iff w x y).mp hv
    have hcell := worldInv_getCell w hinv x y c hc
    rw [cellInv_iff] at hcell
    have hxn : ((x.toNat : Int)) = x := Int.toNat_of_nonneg hx0
    have hyn : ((y.toNat : Int)) = y := Int.toNat_of_nonneg hy0
    refine ⟨?_, ?_, ?_⟩
    · intro g hg
      obtain ⟨ha, hgx, hgy⟩ := hcell.1 g hg
      rw [hxn] at hgx
      rw [hyn] at hgy
      exact ⟨ha, hgx, hgy, by rw [hgx, hgy]; exact hv⟩
    · intro s hs
      obtain ⟨ha, hsx, hsy⟩ := hcell.2.1 s hs
      rw [hxn] at hsx
      rw [hyn] at hsy
      exact ⟨ha, hsx, hsy, by rw [hsx, hsy]; exact hv⟩
    · intro v hvv
      obtain ⟨ha, hvx, hvy⟩ := hcell.2.2 v hvv
      rw [hxn] at hvx
      rw [hyn] at hvy
      exact ⟨ha, hvx, hvy, by rw [hvx, hvy]; exact hv⟩
  · exact fun w s newX newY hinv ha hv => worldInv_moveSheep w s newX newY hinv ha hv
  · exact fun w v newX newY hinv ha hv => worldInv_moveWolf w v newX newY hinv ha hv
  · exact fun w parent cs cl var r1 r2 r3 hinv =>
      worldInv_createOffspringSheep w parent cs cl var r1 r2 r3 hinv
  · exact fun w p1 r1 r2 cs hinv => worldInv_createSheepOffspringStep w p1 r1 r2 cs hinv

/-- Witness for C2 at a concrete world: a 2×2 world holding one live sheep
at (0, 0) satisfies the invariant, and it still holds after moving that
sheep to (1, 1). -/
theorem C2_position_occupancy_invariant_witness :
    worldInv (setCellContent (mkWorld 2 2) 0 0 { sheep := some sampleSheep }).2 = true ∧
    worldInv (moveSheep (setCellContent (mkWorld 2 2) 0 0
      { sheep := some sampleSheep }).2 sampleSheep 1 1).1 = true := by
  have h := C2_position_occupancy_invariant
  refine ⟨by decide, ?_⟩
  exact h.2.1 _ sampleSheep 1 1 (by decide) (by decide) (by decide)

theorem createOffspringSheep_drop (w : World) (parent : Sheep)
    (currentStep cfgLifespan : Nat) (variation r1 r2 r3 : ℚ)
    (h : findNearbyEmptyCell w parent.x parent.y 2 = none) :
    createOffspringSheep w parent currentStep cfgLifespan variation r1 r2 r3 = (w, none) := by
  unfold createOffspringSheep
  rw [h]

/-- C10: when a birth places an offspring, a candidate cell counts as empty
exactly when it holds no sheep and no wolf — grass occupancy is ignored — so
in some world states the offspring lands in a cell that already contains
live grass (and the grass stays there); and when no such cell exists within
the search radius, the offspring is silently dropped with the world (grid)
unchanged — `createOffspring` never touches the parent's position or
energy. -/
theorem C10_birth_placement_ignores_grass :
    (∀ (w : World) (x y : Int) (radius : Nat) (p : Int × Int),
      findNearbyEmptyCell w x y radius = some p →
      isValidPosition w p.1 p.2 = true ∧
      ∃ c, getCell w p.1 p.2 = some c ∧ c.sheep = none ∧ c.wolf = none) ∧
    (∃ p : Int × Int,
      findNearbyEmptyCell
        (setCellContent ((setCellContent (mkWorld 2 1) 1 0
          { grass := some { sampleGrass with x := 1 } }).2) 0 0
          { sheep := some sampleSheep }).2 0 0 2 = some p ∧
      (grassAt
        (setCellContent ((setCellContent (mkWorld 2 1) 1 0
          { grass := some { sampleGrass with x := 1 } }).2) 0 0
          { sheep := some sampleSheep }).2 p.1 p.2).isSome = true ∧
      (sheepAt (createOffspringSheep
        (setCellContent ((setCellContent (mkWorld 2 1) 1 0
          { grass := some { sampleGrass with x := 1 } }).2) 0 0
          { sheep := some sampleSheep }).2
        sampleSheep 1 100 (1/10) (1/2) (1/2) (1/2)).1 p.1 p.2).isSome = true ∧
      (grassAt (createOffspringSheep
        (setCellContent ((setCellContent (mkWorld 2 1) 1 0
          { grass := some { sampleGrass with x := 1 } }).2) 0 0
          { sheep := some sampleSheep }).2
        sampleSheep 1 100 (1/10) (1/2) (1/2) (1/2)).1 p.1 p.2).isSome = true) ∧
    (∀ (w : World) (parent : Sheep) (currentStep cfgLifespan : Nat)
      (variation r1 r2 r3 : ℚ),
      findNearbyEmptyCell w parent.x parent.y 2 = none →
      createOffspringSheep w parent currentStep cfgLifespan variation r1 r2 r3 = (w, none)) := by
  refine ⟨?_, ?_, ?_⟩
  · exact fun w x y radius p h => findNearbyEmptyCell_spec w x y radius p h
  · exact ⟨(1, 0), rfl, rfl, rfl, rfl⟩
  · exact fun w parent cs cl var r1 r2 r3 h =>
      createOffspringSheep_drop w parent cs cl var r1 r2 r3 h

/-- Witness for C10 at a concrete world: in a 2×1 world with the parent
sheep at (0,0) and grass at (1,0), the placement search returns (1,0) — a
valid cell free of sheep and wolves (but holding grass); and in a 1×1 world
there is no candidate cell, so the offspring is dropped and the world is
returned unchanged. -/
theorem C10_birth_placement_ignores_grass_witness :
    (isValidPosition (setCellContent ((setCellContent (mkWorld 2 1) 1 0
        { grass := some { sampleGrass with x := 1 } }).2) 0 0
        { sheep := some sampleSheep }).2 1 0 = true ∧
      ∃ c, getCell (setCellContent ((setCellContent (mkWorld 2 1) 1 0
        { grass := some { sampleGrass with x := 1 } }).2) 0 0
        { sheep := some sampleSheep }).2 1 0 = some c ∧
        c.sheep = none ∧ c.wolf = none) ∧
    createOffspringSheep (mkWorld 1 1) sampleSheep 1 100 (1/10) (1/2) (1/2) (1/2) =
      ((mkWorld 1 1), none) := by
  have h := C10_birth_placement_ignores_grass
  constructor
  · exact h.1 _ 0 0 2 (1, 0) rfl
  · exact h.2.2 (mkWorld 1 1) sampleSheep 1 100 (1/10) (1/2) (1/2) (1/2) rfl

theorem varyTrait_large_base (base variation rand : ℚ) (hb : 2 ≤ base)
    (hv0 : 0 ≤ variation) (hv1 : variation ≤ 1) (hr0 : 0 ≤ rand) (hr1 : rand ≤ 1) :
    varyTrait base (variation * (1/2)) rand = 1 := by
  unfold varyTrait
  have hchange : -(1/2 : ℚ) ≤ (rand - 1/2) * 2 * (variation * (1/2)) := by
    have h1 : (rand - 1/2) * 2 * (variation * (1/2)) = (rand - 1/2) * variation := by ring
    rw [h1]
    nlinarith
  have hsum : (1 : ℚ) ≤ base + (rand - 1/2) * 2 * (variation * (1/2)) := by linarith
  show (1/10 : ℚ) ⊔ 1 ⊓ (base + (rand - 1/2) * 2 * (variation * (1/2))) = 1
  rw [min_eq_left hsum]
  rw [max_eq_right (by norm_num : (1/10 : ℚ) ≤ 1)]

/-- C8 counterexample: for a wolf parent with the production config
(lifespan 150, inheritance variation 0.15) and the central random draw 1/2
(zero variation), the code's inherited max lifespan is 1 — the `varyTrait`
clamp to [0.1, 1.0] is applied to the lifespan too — while the spec's
parent-value-±-variation formula (clamped to any lifespan range containing
150, here [1, 1000]) gives 150. -/
theorem C8_counterexample :
    (generateInheritedTraitsWolf 150 (3/20) (1/2) (1/2) (1/2)).maxLifespan = 1 ∧
    specInheritedTrait 150 (3/20) (1/2) 1 1000 = 150 ∧
    (1 : Int) ≠ 150 := by
  refine ⟨?_, ?_, by decide⟩
  · show (⌊varyTrait ((150 : Nat) : ℚ) ((3/20) * (1/2)) (1/2)⌋ : Int) = 1
    rw [varyTrait_large_base ((150 : Nat) : ℚ) (3/20) (1/2) (by norm_num)
      (by norm_num) (by norm_num) (by norm_num) (by norm_num)]
    norm_num
  · unfold specInheritedTrait
    norm_num

/-- C8 amended: of the inherited traits, only grazing efficiency is drawn
from the parent's value (± uniform variation, clamped to [0.1, 1.0]); the
hunting-skill analog and energy efficiency are drawn from the fixed bases
0.8 and 1.0 respectively — independent of the parent — with the same
clamp; and max lifespan is the floor of the species' configured lifespan ±
half variation clamped to [0.1, 1.0], which collapses to 1 for every
configured lifespan ≥ 2 (with variation and draw in [0, 1]). -/
theorem C8_trait_inheritance (parent : Sheep) (cfgLifespan : Nat)
    (variation r1 r2 r3 : ℚ) (hL : 2 ≤ cfgLifespan)
    (hv0 : 0 ≤ variation) (hv1 : variation ≤ 1) (hr0 : 0 ≤ r3) (hr1 : r3 ≤ 1) :
    (generateInheritedTraitsSheep parent cfgLifespan variation r1 r2 r3).grazingEfficiency =
      some (specInheritedTrait parent.grazingEfficiency variation r1 (1/10) 1) ∧
    (generateInheritedTraitsSheep parent cfgLifespan variation r1 r2 r3).energyEfficiency =
      specInheritedTrait 1 variation r2 (1/10) 1 ∧
    (generateInheritedTraitsWolf cfgLifespan variation r1 r2 r3).huntingSkill =
      some (specInheritedTrait (4/5) variation r1 (1/10) 1) ∧
    (generateInheritedTraitsWolf cfgLifespan variation r1 r2 r3).energyEfficiency =
      specInheritedTrait 1 variation r2 (1/10) 1 ∧
    (generateInheritedTraitsSheep parent cfgLifespan variation r1 r2 r3).maxLifespan = 1 ∧
    (generateInheritedTraitsWolf cfgLifespan variation r1 r2 r3).maxLifespan = 1 := by
  have hbase : (2 : ℚ) ≤ ((cfgLifespan : Nat) : ℚ) := by
    exact_mod_cast hL
  have hfloor : (⌊varyTrait ((cfgLifespan : Nat) : ℚ) (variation * (1/2)) r3⌋ : Int) = 1 := by
    rw [varyTrait_large_base _ variation r3 hbase hv0 hv1 hr0 hr1]
    norm_num
  refine ⟨rfl, rfl, rfl, rfl, hfloor, hfloor⟩

/-- Witness for C8 (amended) with the production wolf configuration
(lifespan 150, variation 0.15) and central draws: the offspring's max
lifespan is 1. -/
theorem C8_trait_inheritance_witness :
    (generateInheritedTraitsWolf 150 (3/20) (1/2) (1/2) (1/2)).maxLifespan = 1 := by
  have h := C8_trait_inheritance sampleSheep 150 (3/20) (1/2) (1/2) (1/2)
    (by norm_num) (by norm_num) (by norm_num) (by norm_num) (by norm_num)
  exact h.2.2.2.2.2

theorem initiateMating_success_iff (rate : ℚ) (gest : Nat) (cost : ℚ)
    (lmin lmax : Nat) (o1 o2 : Sheep) (st : Nat) (rS rC rL : ℚ) :
    (rS < matingThreshold rate o1.energy o2.energy) ↔
      ∃ pm, initiateMatingSheep rate gest cost lmin lmax o1 o2 st rS rC rL = some pm := by
  constructor
  · intro hlt
    unfold initiateMatingSheep
    rw [if_neg (not_le.mpr hlt)]
    exact ⟨_, rfl⟩
  · intro ⟨pm, hpm⟩
    unfold initiateMatingSheep at hpm
    by_cases hge : rS ≥ matingThreshold rate o1.energy o2.energy
    · rw [if_pos hge] at hpm
      simp at hpm
    · exact not_le.mp hge

theorem initiateMating_some_fields (rate : ℚ) (gest : Nat) (cost : ℚ)
    (lmin lmax : Nat) (o1 o2 : Sheep) (st : Nat) (rS rC rL : ℚ) (p m : Sheep)
    (hpm : initiateMatingSheep rate gest cost lmin lmax o1 o2 st rS rC rL = some (p, m)) :
    p.reproductionState.isPregnant = true ∧
    p.reproductionState.gestationRemaining = (gest : Int) ∧
    p.reproductionState.pregnancyEnergyCost = cost / (gest : ℚ) ∧
    p.reproductionState.lastMatingStep = (st : Int) ∧
    m.reproductionState.lastMatingStep = (st : Int) := by
  unfold initiateMatingSheep at hpm
  by_cases hge : rS ≥ matingThreshold rate o1.energy o2.energy
  · rw [if_pos hge] at hpm
    simp at hpm
  · rw [if_neg hge] at hpm
    by_cases hch : rC < 1/2
    · simp only [hch, if_true, if_pos] at hpm
      cases hpm
      exact ⟨rfl, rfl, rfl, rfl, rfl⟩
    · simp only [hch, if_false, if_neg] at hpm
      cases hpm
      exact ⟨rfl, rfl, rfl, rfl, rfl⟩

/-- C3 counterexample: two well-fed parents with energy 2 (average 2, above
the hardcoded maxEnergy of 1.0) and base rate 0.1: the spec formula gives
probability 0.1 × 2² = 0.4, so the draw 0.2 should succeed, but the code's
clamped threshold is 0.1 × min(1, 2²) = 0.1 and the mating fails — the
success probability does not equal baseRate × (avgEnergy / maxEnergy)². -/
theorem C3_counterexample :
    initiateMatingSheep (1/10) 8 (1/5) 2 3
      { sampleSheep with energy := 2 }
      { sampleSheep with id := "s2", energy := 2 } 1 (1/5) 0 0 = none ∧
    (1/5 : ℚ) < specMatingProbability (1/10) 2 1 ∧
    matingThreshold (1/10) 2 2 ≠ specMatingProbability (1/10) 2 1 := by
  refine ⟨?_, ?_, ?_⟩
  · unfold initiateMatingSheep
    rw [if_pos]
    unfold matingThreshold
    show (1/5 : ℚ) ≥ 1/10 * min 1 ((((2 : ℚ) + 2) / 2 / 1) ^ 2)
    norm_num
  · unfold specMatingProbability
    norm_num
  · unfold matingThreshold specMatingProbability
    norm_num

/-- C3 amended: the success probability of a mating attempt equals
`baseReproductionRate × min(1, avgParentEnergy²)` — the spec's formula with
maxEnergy hardcoded to 1.0 and the quadratic factor clamped at 1 — so the
two agree exactly when the average parent energy is at most 1; and whenever
the roll succeeds, a pregnancy is initiated: one parent becomes pregnant
with the full gestation period, the per-tick cost
`totalEnergyCost / gestationPeriod`, and both parents stamped with the
mating step. -/
theorem C3_mating_success_probability (rate e1 e2 : ℚ) (h0 : 0 ≤ (e1 + e2) / 2) :
    matingThreshold rate e1 e2 = rate * min 1 (((e1 + e2) / 2) ^ 2) ∧
    ((e1 + e2) / 2 ≤ 1 →
      matingThreshold rate e1 e2 = specMatingProbability rate ((e1 + e2) / 2) 1) ∧
    (∀ (gest : Nat) (cost : ℚ) (lmin lmax : Nat) (o1 o2 : Sheep)
      (step : Nat) (rS rC rL : ℚ), o1.energy = e1 → o2.energy = e2 →
      ((rS < matingThreshold rate e1 e2) ↔
        ∃ pm, initiateMatingSheep rate gest cost lmin lmax o1 o2 step rS rC rL = some pm) ∧
      (∀ p m, initiateMatingSheep rate gest cost lmin lmax o1 o2 step rS rC rL = some (p, m) →
        p.reproductionState.isPregnant = true ∧
        p.reproductionState.gestationRemaining = (gest : Int) ∧
        p.reproductionState.pregnancyEnergyCost = cost / (gest : ℚ) ∧
        p.reproductionState.lastMatingStep = (step : Int) ∧
        m.reproductionState.lastMatingStep = (step : Int))) := by
  refine ⟨?_, ?_, ?_⟩
  · unfold matingThreshold
    simp only []
    rw [div_one]
  · intro h1
    unfold matingThreshold specMatingProbability
    simp only []
    rw [div_one]
    have hsq : ((e1 + e2) / 2) ^ 2 ≤ 1 := by nlinarith
    rw [min_eq_right hsq]
  · intro gest cost lmin lmax o1 o2 step rS rC rL he1 he2
    constructor
    · rw [← he1, ← he2]
      exact initiateMating_success_iff rate gest cost lmin lmax o1 o2 step rS rC rL
    · intro p m hpm
      have h := initiateMating_some_fields rate gest cost lmin lmax o1 o2 step rS rC rL p m hpm
      exact ⟨h.1, h.2.1, h.2.2.1, h.2.2.2.1, h.2.2.2.2⟩

/-- Witness for C3 (amended) at parents with energies 1/2 and 1/2: the
clamp is inactive (average ≤ 1), the threshold matches the spec formula
with maxEnergy 1, and the successful draw 1/50 < 0.1 × (1/2)² initiates a
pregnancy with gestation 8 and per-tick cost (1/5)/8. -/
theorem C3_mating_success_probability_witness :
    matingThreshold (1/10) (1/2) (1/2) =
      specMatingProbability (1/10) (((1:ℚ)/2 + 1/2) / 2) 1 ∧
    ∃ pm, initiateMatingSheep (1/10) 8 (1/5) 2 3
      { sampleSheep with energy := 1/2 }
      { sampleSheep with id := "s2", energy := 1/2 } 1 (1/50) 0 0 = some pm := by
  have h := C3_mating_success_probability (1/10) (1/2) (1/2) (by norm_num)
  have h3 := h.2.2 8 (1/5) 2 3
    { sampleSheep with energy := 1/2 }
    { sampleSheep with id := "s2", energy := 1/2 } 1 (1/50) 0 0 rfl rfl
  constructor
  · exact h.2.1 (by norm_num)
  · refine h3.1.mp ?_
    rw [h.1]
    norm_num

theorem getCell_recordDeath (w : World) (o : OrganismSnapshot) (c : Cause)
    (s : String) (a b : Int) : getCell (recordDeath w o c s) a b = getCell w a b := rfl

theorem isValidPosition_recordDeath (w : World) (o : OrganismSnapshot) (c : Cause)
    (s : String) (a b : Int) :
    isValidPosition (recordDeath w o c s) a b = isValidPosition w a b := rfl

theorem deathStats_setCellContent (w : World) (x y : Int) (ct : CellContent) :
    (setCellContent w x y ct).2.deathStats = w.deathStats := by
  unfold setCellContent
  split <;> rfl

theorem isValidPosition_setCellContent (w : World) (x y : Int) (ct : CellContent)
    (a b : Int) :
    isValidPosition (setCellContent w x y ct).2 a b = isValidPosition w a b := by
  unfold setCellContent
  split
  · exact isValidPosition_modifyCell w x y a b _
  · rfl

theorem getCell_setCellContent_isSome (w : World) (x y : Int) (ct : CellContent)
    (a b : Int) (h : (getCell w a b).isSome = true) :
    (getCell (setCellContent w x y ct).2 a b).isSome = true := by
  unfold setCellContent
  split
  next hv =>
    by_cases he : a = x ∧ b = y
    · obtain ⟨hax, hby⟩ := he
      subst hax
      subst hby
      rw [getCell_modifyCell_eq w a b _ hv]
      cases hg : getCell w a b with
      | none => rw [hg] at h; simp at h
      | some c => simp
    · rw [getCell_modifyCell_ne w x y a b _ hv he]
      exact h
  next => exact h

theorem mem_push_cap (l : List DeathRecord) (a : DeathRecord) :
    a ∈ (if (l ++ [a]).length > 50 then (l ++ [a]).drop 1 else (l ++ [a])) := by
  split
  next h =>
    cases l with
    | nil => simp at h
    | cons b rest => simp
  next => simp

theorem recordDeath_mem_recent (w : World) (o : OrganismSnapshot) (c : Cause)
    (s : String) :
    ∃ rec ∈ (recordDeath w o c s).deathStats.recentDeaths,
      rec.organismId = o.id ∧ rec.cause = c ∧ rec.repIsPregnant = o.repIsPregnant := by
  unfold recordDeath
  rw [bumpType_recentDeaths, bumpCause_recentDeaths]
  simp only []
  exact ⟨_, mem_push_cap _ _, rfl, rfl, rfl⟩

theorem sheepAt_eq_some {w : World} {x y : Int} {s : Sheep}
    (h : sheepAt w x y = some s) :
    ∃ c, getCell w x y = some c ∧ c.sheep = some s := by
  unfold sheepAt at h
  cases hg : getCell w x y with
  | none => rw [hg] at h; simp at h
  | some c =>
    rw [hg] at h
    exact ⟨c, rfl, h⟩

theorem sheepAt_set_self (w : World) (x y : Int) (s : Sheep)
    (hv : isValidPosition w x y = true) (hc : (getCell w x y).isSome = true) :
    sheepAt (setCellContent w x y { sheep := some s }).2 x y = some s := by
  unfold sheepAt setCellContent
  rw [if_pos hv, getCell_modifyCell_eq w x y _ hv]
  cases hg : getCell w x y with
  | none => rw [hg] at hc; simp at hc
  | some c =>
    show (some (applyContent { sheep := some s } c)).bind Cell.sheep = some s
    rw [Option.some_bind, applyContent_sheep]

theorem birthFold_valid (l : List Nat) (parent : Sheep)
    (currentStep cfgLifespan : Nat) (variation : ℚ) (acc : World × List ℚ)
    (a b : Int) :
    isValidPosition (l.foldl (fun acc _ =>
      let out := createOffspringSheepR acc.1 parent currentStep cfgLifespan variation acc.2
      (out.1, out.2.2)) acc).1 a b = isValidPosition acc.1 a b := by
  induction l generalizing acc with
  | nil => rfl
  | cons hd tl ih =>
    rw [List.foldl_cons, ih]
    show isValidPosition (createOffspringSheepR acc.1 parent currentStep cfgLifespan
      variation acc.2).1 a b = _
    unfold createOffspringSheepR
    cases hf : findNearbyEmptyCell acc.1 parent.x parent.y 2 with
    | none => rfl
    | some loc =>
      simp only []
      show isValidPosition (createOffspringSheep acc.1 parent currentStep cfgLifespan
        variation _ _ _).1 a b = _
      unfold createOffspringSheep
      rw [hf]
      exact isValidPosition_setCellContent acc.1 loc.1 loc.2 _ a b

theorem birthFold_isSome (l : List Nat) (parent : Sheep)
    (currentStep cfgLifespan : Nat) (variation : ℚ) (acc : World × List ℚ)
    (a b : Int) (h : (getCell acc.1 a b).isSome = true) :
    (getCell (l.foldl (fun acc _ =>
      let out := createOffspringSheepR acc.1 parent currentStep cfgLifespan variation acc.2
      (out.1, out.2.2)) acc).1 a b).isSome = true := by
  induction l generalizing acc with
  | nil => exact h
  | cons hd tl ih =>
    rw [List.foldl_cons]
    refine ih _ ?_
    show (getCell (createOffspringSheepR acc.1 parent currentStep cfgLifespan
      variation acc.2).1 a b).isSome = true
    unfold createOffspringSheepR
    cases hf : findNearbyEmptyCell acc.1 parent.x parent.y 2 with
    | none => exact h
    | some loc =>
      simp only []
      show (getCell (createOffspringSheep acc.1 parent currentStep cfgLifespan
        variation _ _ _).1 a b).isSome = true
      unfold createOffspringSheep
      rw [hf]
      exact getCell_setCellContent_isSome acc.1 loc.1 loc.2 _ a b h

theorem giveBirthSheep_valid (w : World) (p : Sheep)
    (currentStep cooldownPeriod cfgLifespan : Nat) (variation : ℚ)
    (rs : List ℚ) (a b : Int) :
    isValidPosition (giveBirthSheep w p currentStep cooldownPeriod cfgLifespan
      variation rs).1 a b = isValidPosition w a b := by
  unfold giveBirthSheep
  simp only []
  exact birthFold_valid _ _ _ _ _ _ a b

theorem giveBirthSheep_isSome (w : World) (p : Sheep)
    (currentStep cooldownPeriod cfgLifespan : Nat) (variation : ℚ)
    (rs : List ℚ) (a b : Int) (h : (getCell w a b).isSome = true) :
    (getCell (giveBirthSheep w p currentStep cooldownPeriod cfgLifespan
      variation rs).1 a b).isSome = true := by
  unfold giveBirthSheep
  simp only []
  exact birthFold_isSome _ _ _ _ _ _ a b h

/-- C7: on every tick of a pregnancy the carrying parent's energy is reduced
by the per-tick cost, which `initiateMating` fixed as
`totalEnergyCost / gestationPeriod`; if the energy then falls at or under
the miscarriage floor 0.2, the pregnancy aborts: one starvation-cause event
is recorded on the ledger carrying the pregnancy snapshot
(`repIsPregnant = some true` — recorded against the pregnancy), while the
parent organism itself stays alive and in its cell with its reproduction
state returned to not-pregnant; otherwise gestationRemaining decrements,
and when it reaches zero the birth fires: the parent's state resets to
not-pregnant and the reproduction cooldown starts. -/
theorem C7_pregnancy_tick (w : World) (x y : Int)
    (step cooldownPeriod cfgLifespan : Nat) (variation : ℚ) (rs : List ℚ)
    (s : Sheep) (hs : sheepAt w x y = some s)
    (hpreg : s.reproductionState.isPregnant = true) :
    (∀ (rate cost : ℚ) (gest lmin lmax st : Nat) (o1 o2 : Sheep)
      (r1 r2 r3 : ℚ) (p m : Sheep),
      initiateMatingSheep rate gest cost lmin lmax o1 o2 st r1 r2 r3 = some (p, m) →
      p.reproductionState.pregnancyEnergyCost = cost / (gest : ℚ)) ∧
    (s.energy - s.reproductionState.pregnancyEnergyCost ≤ 1/5 →
      ∃ s2, sheepAt (processPregnancySheep w x y step cooldownPeriod cfgLifespan
          variation rs).1 x y = some s2 ∧
        s2.id = s.id ∧ s2.isAlive = s.isAlive ∧
        s2.energy = s.energy - s.reproductionState.pregnancyEnergyCost ∧
        s2.reproductionState.isPregnant = false ∧
        (processPregnancySheep w x y step cooldownPeriod cfgLifespan
          variation rs).1.deathStats.totalDeaths = w.deathStats.totalDeaths + 1 ∧
        ∃ rec ∈ (processPregnancySheep w x y step cooldownPeriod cfgLifespan
          variation rs).1.deathStats.recentDeaths,
          rec.organismId = s.id ∧ rec.cause = Cause.starvation ∧
          rec.repIsPregnant = some true) ∧
    (¬(s.energy - s.reproductionState.pregnancyEnergyCost ≤ 1/5) →
      ¬(s.reproductionState.gestationRemaining - 1 ≤ 0) →
      ∃ s2, sheepAt (processPregnancySheep w x y step cooldownPeriod cfgLifespan
          variation rs).1 x y = some s2 ∧
        s2.id = s.id ∧
        s2.energy = s.energy - s.reproductionState.pregnancyEnergyCost ∧
        s2.reproductionState.isPregnant = true ∧
        s2.reproductionState.gestationRemaining =
          s.reproductionState.gestationRemaining - 1 ∧
        (processPregnancySheep w x y step cooldownPeriod cfgLifespan
          variation rs).1.deathStats = w.deathStats) ∧
    (¬(s.energy - s.reproductionState.pregnancyEnergyCost ≤ 1/5) →
      s.reproductionState.gestationRemaining - 1 ≤ 0 →
      ∃ s2, sheepAt (processPregnancySheep w x y step cooldownPeriod cfgLifespan
          variation rs).1 x y = some s2 ∧
        s2.id = s.id ∧
        s2.energy = s.energy - s.reproductionState.pregnancyEnergyCost ∧
        s2.reproductionState.isPregnant = false ∧
        s2.reproductionState.gestationRemaining = 0 ∧
        s2.reproductionState.lastMatingStep = (step : Int) ∧
        s2.reproductionCooldown = cooldownPeriod) := by
  obtain ⟨c, hc, hcs⟩ := sheepAt_eq_some hs
  have hv := getCell_valid w x y c hc
  have hIsSome : (getCell w x y).isSome = true := by rw [hc]; rfl
  refine ⟨?_, ?_, ?_, ?_⟩
  · intro rate cost gest lmin lmax st o1 o2 r1 r2 r3 p m hpm
    exact (initiateMating_some_fields rate gest cost lmin lmax o1 o2 st
      r1 r2 r3 p m hpm).2.2.1
  · intro hm
    unfold processPregnancySheep
    rw [hs]
    simp only []
    rw [if_pos hm]
    refine ⟨_, sheepAt_set_self _ x y _ ?_ ?_, rfl, rfl, rfl, rfl, ?_, ?_⟩
    · rw [isValidPosition_recordDeath, isValidPosition_setCellContent]
      exact hv
    · rw [getCell_recordDeath]
      exact getCell_setCellContent_isSome w x y _ x y hIsSome
    · rw [deathStats_setCellContent, recordDeath_totalDeaths, deathStats_setCellContent]
    · rw [deathStats_setCellContent]
      obtain ⟨rec, hmem, h1, h2, h3⟩ := recordDeath_mem_recent
        (setCellContent w x y
          { sheep := some { s with energy := s.energy - s.reproductionState.pregnancyEnergyCost } }).2
        (sheepSnapshot { s with energy := s.energy - s.reproductionState.pregnancyEnergyCost })
        Cause.starvation "Miscarriage due to low energy"
      refine ⟨rec, hmem, h1, h2, ?_⟩
      rw [h3]
      show some s.reproductionState.isPregnant = some true
      rw [hpreg]
  · intro hm hg
    unfold processPregnancySheep
    rw [hs]
    simp only []
    rw [if_neg hm, if_neg (by simpa using hg)]
    refine ⟨_, sheepAt_set_self _ x y _ ?_ ?_, rfl, rfl, ?_, rfl, ?_⟩
    · rw [isValidPosition_setCellContent]
      exact hv
    · exact getCell_setCellContent_isSome w x y _ x y hIsSome
    · show s.reproductionState.isPregnant = true
      exact hpreg
    · rw [deathStats_setCellContent, deathStats_setCellContent]
  · intro hm hg
    unfold processPregnancySheep
    rw [hs]
    simp only []
    rw [if_neg hm, if_pos (by simpa using hg)]
    refine ⟨_, sheepAt_set_self _ x y _ ?_ ?_, rfl, rfl, rfl, rfl, rfl, rfl⟩
    · rw [giveBirthSheep_valid, isValidPosition_setCellContent,
        isValidPosition_setCellContent]
      exact hv
    · refine giveBirthSheep_isSome _ _ _ _ _ _ _ x y ?_
      refine getCell_setCellContent_isSome _ x y _ x y ?_
      exact getCell_setCellContent_isSome w x y _ x y hIsSome

/-- Witness for C7 at a concrete world: a pregnant sheep at (0, 0) of a 1×1
world with energy 3/10 and per-tick cost 1/5 miscarries (3/10 − 1/5 ≤ 1/5):
it stays on the grid, not pregnant, and one starvation event is recorded. -/
theorem C7_pregnancy_tick_witness :
    ∃ s2, sheepAt (processPregnancySheep (setCellContent (mkWorld 1 1) 0 0
        { sheep := some { sampleSheep with energy := 3/10, reproductionState :=
          { isPregnant := true, gestationRemaining := 5, expectedLitterSize := 2,
            pregnancyEnergyCost := 1/5, lastMatingStep := 0 } } }).2
        0 0 3 10 100 (1/10) []).1 0 0 = some s2 ∧
      s2.id = sampleSheep.id ∧ s2.isAlive = true ∧
      s2.energy = 3/10 - 1/5 ∧
      s2.reproductionState.isPregnant = false ∧
      (processPregnancySheep (setCellContent (mkWorld 1 1) 0 0
        { sheep := some { sampleSheep with energy := 3/10, reproductionState :=
          { isPregnant := true, gestationRemaining := 5, expectedLitterSize := 2,
            pregnancyEnergyCost := 1/5, lastMatingStep := 0 } } }).2
        0 0 3 10 100 (1/10) []).1.deathStats.totalDeaths =
        (setCellContent (mkWorld 1 1) 0 0
        { sheep := some { sampleSheep with energy := 3/10, reproductionState :=
          { isPregnant := true, gestationRemaining := 5, expectedLitterSize := 2,
            pregnancyEnergyCost := 1/5, lastMatingStep := 0 } } }).2.deathStats.totalDeaths + 1 := by
  have h := C7_pregnancy_tick (setCellContent (mkWorld 1 1) 0 0
      { sheep := some { sampleSheep with energy := 3/10, reproductionState :=
        { isPregnant := true, gestationRemaining := 5, expectedLitterSize := 2,
          pregnancyEnergyCost := 1/5, lastMatingStep := 0 } } }).2
      0 0 3 10 100 (1/10) []
      { sampleSheep with energy := 3/10, reproductionState :=
        { isPregnant := true, gestationRemaining := 5, expectedLitterSize := 2,
          pregnancyEnergyCost := 1/5, lastMatingStep := 0 } } rfl rfl
  obtain ⟨s2, h1, h2, h3, h4, h5, h6, _⟩ := h.2.1 (by norm_num)
  exact ⟨s2, h1, h2, h3, h4, h5, h6⟩

theorem sheepAt_modifyCell_pres (w : World) (x y : Int) (f : Cell → Cell)
    (hv : isValidPosition w x y = true) (hf : ∀ c, (f c).sheep = c.sheep)
    (a b : Int) : sheepAt (modifyCell w x y f) a b = sheepAt w a b := by
  unfold sheepAt
  by_cases he : a = x ∧ b = y
  · obtain ⟨hax, hby⟩ := he
    subst hax
    subst hby
    rw [getCell_modifyCell_eq w a b f hv]
    cases hg : getCell w a b with
    | none => rfl
    | some c =>
      show (some (f c)).bind Cell.sheep = (some c).bind Cell.sheep
      rw [Option.some_bind, Option.some_bind, hf c]
  · rw [getCell_modifyCell_ne w x y a b f hv he]

theorem wolfAt_modifyCell_pres (w : World) (x y : Int) (f : Cell → Cell)
    (hv : isValidPosition w x y = true) (hf : ∀ c, (f c).wolf = c.wolf)
    (a b : Int) : wolfAt (modifyCell w x y f) a b = wolfAt w a b := by
  unfold wolfAt
  by_cases he : a = x ∧ b = y
  · obtain ⟨hax, hby⟩ := he
    subst hax
    subst hby
    rw [getCell_modifyCell_eq w a b f hv]
    cases hg : getCell w a b with
    | none => rfl
    | some c =>
      show (some (f c)).bind Cell.wolf = (some c).bind Cell.wolf
      rw [Option.some_bind, Option.some_bind, hf c]
  · rw [getCell_modifyCell_ne w x y a b f hv he]

theorem getCell_isSome_modifyCell (w : World) (x y : Int) (f : Cell → Cell)
    (hv : isValidPosition w x y = true) (a b : Int)
    (h : (getCell w a b).isSome = true) :
    (getCell (modifyCell w x y f) a b).isSome = true := by
  by_cases he : a = x ∧ b = y
  · obtain ⟨hax, hby⟩ := he
    subst hax
    subst hby
    rw [getCell_modifyCell_eq w a b f hv]
    cases hg : getCell w a b with
    | none => rw [hg] at h; simp at h
    | some c => simp
  · rw [getCell_modifyCell_ne w x y a b f hv he]
    exact h

theorem wolfAt_updateWolfAt_self (w : World) (x y : Int) (g : Wolf → Wolf)
    (hv : isValidPosition w x y = true) :
    wolfAt (updateWolfAt w x y g) x y = (wolfAt w x y).map g := by
  unfold updateWolfAt
  rw [if_pos hv]
  unfold wolfAt
  rw [getCell_modifyCell_eq w x y _ hv]
  cases hg : getCell w x y with
  | none => rfl
  | some c =>
    show (some { c with wolf := c.wolf.map g }).bind Cell.wolf = _
    rw [Option.some_bind]
    rfl

theorem wolfAt_updateWolfAt_ne (w : World) (x y : Int) (g : Wolf → Wolf)
    (a b : Int) (he : ¬(a = x ∧ b = y)) :
    wolfAt (updateWolfAt w x y g) a b = wolfAt w a b := by
  unfold updateWolfAt
  split
  next hv =>
    unfold wolfAt
    rw [getCell_modifyCell_ne w x y a b _ hv he]
  next => rfl

theorem sheepAt_updateWolfAt (w : World) (x y : Int) (g : Wolf → Wolf)
    (a b : Int) : sheepAt (updateWolfAt w x y g) a b = sheepAt w a b := by
  unfold updateWolfAt
  split
  next hv =>
    refine sheepAt_modifyCell_pres w x y _ hv (fun c => ?_) a b
    rfl
  next => rfl

theorem deathStats_updateWolfAt (w : World) (x y : Int) (g : Wolf → Wolf) :
    (updateWolfAt w x y g).deathStats = w.deathStats := by
  unfold updateWolfAt
  split <;> rfl

theorem isValidPosition_updateWolfAt (w : World) (x y : Int) (g : Wolf → Wolf)
    (a b : Int) :
    isValidPosition (updateWolfAt w x y g) a b = isValidPosition w a b := by
  unfold updateWolfAt
  split
  · exact isValidPosition_modifyCell w x y a b _
  · rfl

theorem getCell_isSome_updateWolfAt (w : World) (x y : Int) (g : Wolf → Wolf)
    (a b : Int) (h : (getCell w a b).isSome = true) :
    (getCell (updateWolfAt w x y g) a b).isSome = true := by
  unfold updateWolfAt
  split
  next hv => exact getCell_isSome_modifyCell w x y _ hv a b h
  next => exact h

theorem wolfAt_deleteSheepAt (w : World) (x y : Int) (a b : Int) :
    wolfAt (deleteSheepAt w x y) a b = wolfAt w a b := by
  unfold deleteSheepAt
  cases hg : getCell w x y with
  | none => rfl
  | some c =>
    show wolfAt (modifyCell w x y (fun c => { c with sheep := none })) a b = wolfAt w a b
    refine wolfAt_modifyCell_pres w x y _ (getCell_valid w x y c hg) (fun c => ?_) a b
    rfl

theorem sheepAt_deleteSheepAt_self (w : World) (x y : Int)
    (h : (getCell w x y).isSome = true) :
    sheepAt (deleteSheepAt w x y) x y = none := by
  unfold deleteSheepAt
  cases hg : getCell w x y with
  | none => rw [hg] at h; simp at h
  | some c =>
    unfold sheepAt
    rw [getCell_modifyCell_eq w x y _ (getCell_valid w x y c hg), hg]
    rfl

theorem deathStats_deleteSheepAt (w : World) (x y : Int) :
    (deleteSheepAt w x y).deathStats = w.deathStats := by
  unfold deleteSheepAt
  split <;> rfl

theorem isValidPosition_deleteSheepAt (w : World) (x y : Int) (a b : Int) :
    isValidPosition (deleteSheepAt w x y) a b = isValidPosition w a b := by
  unfold deleteSheepAt
  split
  next c hg => exact isValidPosition_modifyCell w x y a b _
  next => rfl

theorem sheepAt_setCellContent_pres (w : World) (x y : Int) (ct : CellContent)
    (hs : ct.sheep = none) (a b : Int) :
    sheepAt (setCellContent w x y ct).2 a b = sheepAt w a b := by
  unfold setCellContent
  split
  next hv =>
    refine sheepAt_modifyCell_pres w x y _ hv (fun c => ?_) a b
    rw [applyContent_sheep, hs]
  next => rfl

theorem sheepAt_moveWolf (w : World) (u : Wolf) (nx ny : Int) (a b : Int) :
    sheepAt (moveWolf w u nx ny).1 a b = sheepAt w a b := by
  unfold moveWolf
  simp only []
  rw [sheepAt_setCellContent_pres _ nx ny _ rfl a b]
  cases hg : getCell w u.x u.y with
  | none => rfl
  | some c =>
    show sheepAt (modifyCell w u.x u.y (fun c => { c with wolf := none })) a b = sheepAt w a b
    refine sheepAt_modifyCell_pres w u.x u.y _ (getCell_valid w u.x u.y c hg)
      (fun c => ?_) a b
    rfl

theorem deathStats_moveWolf (w : World) (u : Wolf) (nx ny : Int) :
    (moveWolf w u nx ny).1.deathStats = w.deathStats := by
  unfold moveWolf
  simp only []
  rw [deathStats_setCellContent]
  cases hg : getCell w u.x u.y with
  | none => rfl
  | some c => rfl

theorem wolfAt_set_self (w : World) (x y : Int) (u : Wolf)
    (hv : isValidPosition w x y = true) (hc : (getCell w x y).isSome = true) :
    wolfAt (setCellContent w x y { wolf := some u }).2 x y = some u := by
  unfold wolfAt setCellContent
  rw [if_pos hv, getCell_modifyCell_eq w x y _ hv]
  cases hg : getCell w x y with
  | none => rw [hg] at hc; simp at hc
  | some c =>
    show (some (applyContent { wolf := some u } c)).bind Cell.wolf = some u
    rw [Option.some_bind, applyContent_wolf]

theorem wolfAt_moveWolf_self (w : World) (u : Wolf) (nx ny : Int)
    (hvNew : isValidPosition w nx ny = true)
    (hsome : (getCell w nx ny).isSome = true) :
    wolfAt (moveWolf w u nx ny).1 nx ny =
      some { u with x := nx, y := ny,
                    lastDirection := getDirection (nx - u.x) (ny - u.y) } := by
  unfold moveWolf
  simp only []
  cases hg : getCell w u.x u.y with
  | none =>
    exact wolfAt_set_self w nx ny _ hvNew hsome
  | some c =>
    have hvOld := getCell_valid w u.x u.y c hg
    refine wolfAt_set_self _ nx ny _ ?_ ?_
    · rw [isValidPosition_modifyCell]
      exact hvNew
    · exact getCell_isSome_modifyCell w u.x u.y _ hvOld nx ny hsome

theorem bumpType_huntingDeaths (t : String) (d : DeathStatistics) :
    (bumpType t d).huntingDeaths = d.huntingDeaths := by
  unfold bumpType
  split
  · rfl
  · split
    · rfl
    · split <;> rfl

theorem recordDeath_huntingDeaths (w : World) (o : OrganismSnapshot) (s : String) :
    (recordDeath w o Cause.hunting s).deathStats.huntingDeaths =
      w.deathStats.huntingDeaths + 1 := by
  unfold recordDeath
  rw [bumpType_huntingDeaths]
  rfl

theorem wolfAt_recordDeath (w : World) (o : OrganismSnapshot) (c : Cause)
    (s : String) (a b : Int) : wolfAt (recordDeath w o c s) a b = wolfAt w a b := rfl

theorem sheepAt_recordDeath (w : World) (o : OrganismSnapshot) (c : Cause)
    (s : String) (a b : Int) : sheepAt (recordDeath w o c s) a b = sheepAt w a b := rfl

theorem findNearbySheep_congr (w1 w2 : World) (x y : Int) (r : Nat)
    (h : ∀ a b, sheepAt w1 a b = sheepAt w2 a b) :
    findNearbySheep w1 x y r = findNearbySheep w2 x y r := by
  unfold findNearbySheep
  congr 1
  funext dx
  congr 1
  funext dy
  exact h _ _

theorem mem_posList_iff (w : World) (p : Int × Int) :
    p ∈ posList w ↔
      0 ≤ p.1 ∧ p.1 < (w.width : Int) ∧ 0 ≤ p.2 ∧ p.2 < (w.height : Int) := by
  unfold posList
  simp only [List.mem_flatMap, List.mem_map, List.mem_range]
  constructor
  · rintro ⟨x, ⟨n, hn, rfl⟩, y, ⟨m, hm, rfl⟩, rfl⟩
    refine ⟨?_, ?_, ?_, ?_⟩ <;> simp <;> omega
  · rintro ⟨h1, h2, h3, h4⟩
    refine ⟨p.1, ⟨p.1.toNat, by omega, Int.toNat_of_nonneg h1⟩,
      ⟨p.2, ⟨p.2.toNat, by omega, Int.toNat_of_nonneg h3⟩, ?_⟩⟩
    rfl

theorem posList_complete_wolf (w : World) (a b : Int) (u : Wolf)
    (h : wolfAt w a b = some u) : (a, b) ∈ posList w := by
  unfold wolfAt at h
  cases hg : getCell w a b with
  | none => rw [hg] at h; simp at h
  | some c =>
    have hv := getCell_valid w a b c hg
    obtain ⟨h1, h2, h3, h4⟩ := (isValidPosition_iff w a b).mp hv
    exact (mem_posList_iff w (a, b)).mpr ⟨h1, h2, h3, h4⟩

theorem filterMap_singleton_values {α β : Type} {l : List α} {f : α → Option β}
    {b : β} (h : l.filterMap f = [b]) :
    (∀ a ∈ l, ∀ c, f a = some c → c = b) ∧
    (∀ a ∈ l, ∀ a2 ∈ l, (f a).isSome = true → (f a2).isSome = true → a = a2) := by
  induction l with
  | nil => exact ⟨by intro a ha; simp at ha, by intro a ha; simp at ha⟩
  | cons x xs ih =>
    rw [List.filterMap_cons] at h
    cases hfx : f x with
    | some bx =>
      rw [hfx] at h
      have hb : bx = b ∧ xs.filterMap f = [] := by
        have := List.cons.injEq bx (xs.filterMap f) b [] ▸ h
        exact ⟨(List.cons.inj h).1, (List.cons.inj h).2⟩
      have hnil : ∀ a ∈ xs, f a = none := by
        intro a ha
        by_contra hne
        cases hfa : f a with
        | none => exact hne hfa
        | some c =>
          have : c ∈ xs.filterMap f := List.mem_filterMap.mpr ⟨a, ha, hfa⟩
          rw [hb.2] at this
          simp at this
      constructor
      · intro a ha c hfa
        rcases List.mem_cons.mp ha with rfl | hin
        · rw [hfx] at hfa
          cases hfa
          exact hb.1
        · rw [hnil a hin] at hfa
          simp at hfa
      · intro a ha a2 ha2 hsa hsa2
        have hax : a = x := by
          rcases List.mem_cons.mp ha with rfl | hin
          · rfl
          · rw [hnil a hin] at hsa; simp at hsa
        have ha2x : a2 = x := by
          rcases List.mem_cons.mp ha2 with rfl | hin
          · rfl
          · rw [hnil a2 hin] at hsa2; simp at hsa2
        rw [hax, ha2x]
    | none =>
      rw [hfx] at h
      obtain ⟨ihv, ihu⟩ := ih h
      constructor
      · intro a ha c hfa
        rcases List.mem_cons.mp ha with rfl | hin
        · rw [hfx] at hfa; simp at hfa
        · exact ihv a hin c hfa
      · intro a ha a2 ha2 hsa hsa2
        have hax : a ∈ xs := by
          rcases List.mem_cons.mp ha with rfl | hin
          · rw [hfx] at hsa; simp at hsa
          · exact hin
        have ha2x : a2 ∈ xs := by
          rcases List.mem_cons.mp ha2 with rfl | hin
          · rw [hfx] at hsa2; simp at hsa2
          · exact hin
        exact ihu a hax a2 ha2x hsa hsa2

theorem findSome?_unique {α β : Type} (l : List α) (f : α → Option β) (a : α)
    (b : β) (ha : a ∈ l) (hfa : f a = some b)
    (huniq : ∀ x ∈ l, f x ≠ none → x = a) : l.findSome? f = some b := by
  induction l with
  | nil => simp at ha
  | cons x xs ih =>
    rw [List.findSome?_cons]
    cases hfx : f x with
    | some c =>
      have hxa : x = a := huniq x (List.mem_cons_self x xs) (by rw [hfx]; simp)
      rw [← hxa] at hfa
      rw [hfx] at hfa
      exact hfa
    | none =>
      have hax : a ∈ xs := by
        rcases List.mem_cons.mp ha with rfl | hin
        · rw [hfx] at hfa; simp at hfa
        · exact hin
      exact ih hax (fun z hz hnz => huniq z (List.mem_cons_of_mem x hz) hnz)

theorem wolf_unique_of_singleton (w : World) (v : Wolf)
    (hw : getWolfList w = [v]) (hvAt : wolfAt w v.x v.y = some v) :
    ∀ a b u, wolfAt w a b = some u → a = v.x ∧ b = v.y ∧ u = v := by
  intro a b u h
  have hw2 : (posList w).filterMap (fun p => wolfAt w p.1 p.2) = [v] := hw
  obtain ⟨hval, huniq⟩ := filterMap_singleton_values hw2
  have hmem : (a, b) ∈ posList w := posList_complete_wolf w a b u h
  have hmemv : (v.x, v.y) ∈ posList w := posList_complete_wolf w v.x v.y v hvAt
  have huv : u = v := hval (a, b) hmem u h
  have hpos : (a, b) = (v.x, v.y) := by
    refine huniq (a, b) hmem (v.x, v.y) hmemv ?_ ?_
    · show (wolfAt w a b).isSome = true
      rw [h]; rfl
    · show (wolfAt w v.x v.y).isSome = true
      rw [hvAt]; rfl
  exact ⟨(Prod.ext_iff.mp hpos).1, (Prod.ext_iff.mp hpos).2, huv⟩

theorem wolfPosById_single (w : World) (u : Wolf) (px py : Int)
    (hat : wolfAt w px py = some u)
    (huniq : ∀ a b u2, wolfAt w a b = some u2 → a = px ∧ b = py) :
    wolfPosById w u.id = some (px, py) := by
  unfold wolfPosById
  refine findSome?_unique (posList w) _ (px, py) (px, py)
    (posList_complete_wolf w px py u hat) ?_ ?_
  · show (match wolfAt w px py with
      | some u2 => if u2.id = u.id then some (px, py) else none
      | none => none) = some (px, py)
    rw [hat]
    simp
  · intro q hq hne
    cases hq2 : wolfAt w q.1 q.2 with
    | none =>
      exfalso
      apply hne
      show (match wolfAt w q.1 q.2 with
        | some u2 => if u2.id = u.id then some q else none
        | none => none) = none
      rw [hq2]
    | some u2 =>
      have := huniq q.1 q.2 u2 hq2
      exact Prod.ext_iff.mpr this

theorem wolfRandomMoveLoop_sheepAt (cfg : WolfCfg) (n : Nat) (w : World)
    (x y : Int) (rs : List ℚ) (a b : Int) :
    sheepAt (wolfRandomMoveLoop cfg n w x y rs).1 a b = sheepAt w a b := by
  induction n generalizing rs with
  | zero => rfl
  | succ n ih =>
    unfold wolfRandomMoveLoop
    simp only []
    split
    next hvn =>
      split
      next cell hcell =>
        split
        next hwn =>
          split
          next u hu => exact sheepAt_moveWolf w u _ _ a b
          next => rfl
        next => exact ih _
      next => exact ih _
    next => exact ih _

theorem wolfRandomMoveLoop_deathStats (cfg : WolfCfg) (n : Nat) (w : World)
    (x y : Int) (rs : List ℚ) :
    (wolfRandomMoveLoop cfg n w x y rs).1.deathStats = w.deathStats := by
  induction n generalizing rs with
  | zero => rfl
  | succ n ih =>
    unfold wolfRandomMoveLoop
    simp only []
    split
    next hvn =>
      split
      next cell hcell =>
        split
        next hwn =>
          split
          next u hu => exact deathStats_moveWolf w u _ _
          next => rfl
        next => exact ih _
      next => exact ih _
    next => exact ih _

theorem wolfRandomMoveLoop_track (cfg : WolfCfg) (n : Nat) (w : World)
    (x y : Int) (rs : List ℚ) (u : Wolf) (hu : wolfAt w x y = some u) :
    ∃ p : Int × Int, ∃ u2 : Wolf,
      wolfAt (wolfRandomMoveLoop cfg n w x y rs).1 p.1 p.2 = some u2 ∧
      u2.id = u.id ∧ u2.energy = u.energy ∧ u2.hunger = u.hunger := by
  induction n generalizing rs with
  | zero => exact ⟨(x, y), u, hu, rfl, rfl, rfl⟩
  | succ n ih =>
    unfold wolfRandomMoveLoop
    simp only []
    split
    next hvn =>
      split
      next cell hcell =>
        split
        next hwn =>
          split
          next u0 hu0 =>
            rw [hu] at hu0
            have huu : u0 = u := by injection hu0 with h; exact h.symm
            subst huu
            refine ⟨(_, _), _,
              wolfAt_moveWolf_self w u0 _ _ hvn (by rw [hcell]; rfl), rfl, rfl, rfl⟩
          next => exact ⟨(x, y), u, hu, rfl, rfl, rfl⟩
        next => exact ih _
      next => exact ih _
    next => exact ih _

theorem wolfMovementStep_sheepAt (cfg : WolfCfg) (st : World × List ℚ)
    (v : Wolf) (a b : Int) :
    sheepAt (wolfMovementStep cfg st v).1 a b = sheepAt st.1 a b := by
  unfold wolfMovementStep
  split
  next => rfl
  next p hp =>
    split
    next => rfl
    next u hu =>
      split
      next => rfl
      next =>
        simp only []
        split
        next t ts hfind =>
          split
          next hvn =>
            split
            next cell hcell =>
              split
              next hwn => exact sheepAt_moveWolf st.1 u _ _ a b
              next => exact wolfRandomMoveLoop_sheepAt cfg 3 st.1 _ _ st.2 a b
            next => exact wolfRandomMoveLoop_sheepAt cfg 3 st.1 _ _ st.2 a b
          next => exact wolfRandomMoveLoop_sheepAt cfg 3 st.1 _ _ st.2 a b
        next hfind => exact wolfRandomMoveLoop_sheepAt cfg 3 st.1 _ _ st.2 a b

theorem wolfMovementStep_deathStats (cfg : WolfCfg) (st : World × List ℚ)
    (v : Wolf) :
    (wolfMovementStep cfg st v).1.deathStats = st.1.deathStats := by
  unfold wolfMovementStep
  split
  next => rfl
  next p hp =>
    split
    next => rfl
    next u hu =>
      split
      next => rfl
      next =>
        simp only []
        split
        next t ts hfind =>
          split
          next hvn =>
            split
            next cell hcell =>
              split
              next hwn => exact deathStats_moveWolf st.1 u _ _
              next => exact wolfRandomMoveLoop_deathStats cfg 3 st.1 _ _ st.2
            next => exact wolfRandomMoveLoop_deathStats cfg 3 st.1 _ _ st.2
          next => exact wolfRandomMoveLoop_deathStats cfg 3 st.1 _ _ st.2
        next hfind => exact wolfRandomMoveLoop_deathStats cfg 3 st.1 _ _ st.2

theorem wolfMovementStep_track (cfg : WolfCfg) (st : World × List ℚ)
    (v u : Wolf) (px py : Int) (hat : wolfAt st.1 px py = some u)
    (huniq : ∀ a b u2, wolfAt st.1 a b = some u2 → a = px ∧ b = py)
    (hid : v.id = u.id) :
    ∃ p : Int × Int, ∃ u2 : Wolf,
      wolfAt (wolfMovementStep cfg st v).1 p.1 p.2 = some u2 ∧
      u2.id = u.id ∧ u2.energy = u.energy ∧ u2.hunger = u.hunger := by
  have hpos : wolfPosById st.1 v.id = some (px, py) := by
    rw [hid]
    exact wolfPosById_single st.1 u px py hat huniq
  unfold wolfMovementStep
  split
  next hnone =>
    rw [hpos] at hnone
    exact Option.noConfusion hnone
  next p hp =>
    rw [hpos] at hp
    injection hp with hp2
    subst hp2
    split
    next hno =>
      rw [show wolfAt st.1 (px, py).1 (px, py).2 = wolfAt st.1 px py from rfl] at hno
      rw [hat] at hno
      exact Option.noConfusion hno
    next u0 hu0 =>
      rw [show wolfAt st.1 (px, py).1 (px, py).2 = wolfAt st.1 px py from rfl] at hu0
      rw [hat] at hu0
      have huu : u0 = u := by injection hu0 with h; exact h.symm
      subst huu
      split
      next => exact ⟨(px, py), u0, hat, rfl, rfl, rfl⟩
      next =>
        simp only []
        split
        next t ts hfind =>
          split
          next hvn =>
            split
            next cell hcell =>
              split
              next hwn =>
                refine ⟨(_, _), _,
                  wolfAt_moveWolf_self st.1 u0 _ _ hvn (by rw [hcell]; rfl),
                  rfl, rfl, rfl⟩
              next => exact wolfRandomMoveLoop_track cfg 3 st.1 _ _ st.2 u0 hat
            next => exact wolfRandomMoveLoop_track cfg 3 st.1 _ _ st.2 u0 hat
          next => exact wolfRandomMoveLoop_track cfg 3 st.1 _ _ st.2 u0 hat
        next hfind => exact wolfRandomMoveLoop_track cfg 3 st.1 _ _ st.2 u0 hat

theorem huntStep_adjacent (cfg : WolfCfg) (acc : World) (v : Wolf) (t : Sheep)
    (rest : List Sheep)
    (hfind : findNearbySheep acc v.x v.y cfg.huntingRadius = t :: rest)
    (hadj : (t.x - v.x) ^ 2 + (t.y - v.y) ^ 2 ≤ 1) :
    huntStep cfg acc v =
      updateWolfAt
        (deleteSheepAt
          (recordDeath
            (updateWolfAt acc v.x v.y
              (fun u => { u with huntingTarget := some t.id }))
            (sheepSnapshot t) Cause.hunting ("Hunted by wolf " ++ v.id))
          t.x t.y)
        v.x v.y
        (fun u => { u with energy := u.energy + cfg.energyPerSheep, hunger := 0,
                           huntingTarget := none }) := by
  unfold huntStep
  simp only []
  split
  next h =>
    rw [hfind] at h
    exact List.noConfusion h
  next t2 ts2 h =>
    rw [hfind] at h
    injection h with h1 h2
    subst h1
    rw [if_pos hadj]

theorem huntChain_facts (cfg : WolfCfg) (W : World) (v1 : Wolf) (t : Sheep)
    (hv : isValidPosition W v1.x v1.y = true)
    (hts : (getCell W t.x t.y).isSome = true)
    (hwat : wolfAt W v1.x v1.y = some v1) :
    sheepAt (updateWolfAt
        (deleteSheepAt
          (recordDeath
            (updateWolfAt W v1.x v1.y
              (fun u => { u with huntingTarget := some t.id }))
            (sheepSnapshot t) Cause.hunting ("Hunted by wolf " ++ v1.id))
          t.x t.y)
        v1.x v1.y
        (fun u => { u with energy := u.energy + cfg.energyPerSheep, hunger := 0,
                           huntingTarget := none })) t.x t.y = none ∧
    (updateWolfAt
        (deleteSheepAt
          (recordDeath
            (updateWolfAt W v1.x v1.y
              (fun u => { u with huntingTarget := some t.id }))
            (sheepSnapshot t) Cause.hunting ("Hunted by wolf " ++ v1.id))
          t.x t.y)
        v1.x v1.y
        (fun u => { u with energy := u.energy + cfg.energyPerSheep, hunger := 0,
                           huntingTarget := none })).deathStats.huntingDeaths =
      W.deathStats.huntingDeaths + 1 ∧
    (∃ rec ∈ (updateWolfAt
        (deleteSheepAt
          (recordDeath
            (updateWolfAt W v1.x v1.y
              (fun u => { u with huntingTarget := some t.id }))
            (sheepSnapshot t) Cause.hunting ("Hunted by wolf " ++ v1.id))
          t.x t.y)
        v1.x v1.y
        (fun u => { u with energy := u.energy + cfg.energyPerSheep, hunger := 0,
                           huntingTarget := none })).deathStats.recentDeaths,
      rec.organismId = t.id ∧ rec.cause = Cause.hunting) ∧
    wolfAt (updateWolfAt
        (deleteSheepAt
          (recordDeath
            (updateWolfAt W v1.x v1.y
              (fun u => { u with huntingTarget := some t.id }))
            (sheepSnapshot t) Cause.hunting ("Hunted by wolf " ++ v1.id))
          t.x t.y)
        v1.x v1.y
        (fun u => { u with energy := u.energy + cfg.energyPerSheep, hunger := 0,
                           huntingTarget := none })) v1.x v1.y =
      some { v1 with energy := v1.energy + cfg.energyPerSheep, hunger := 0,
                     huntingTarget := none } ∧
    (∀ a b, ¬(a = v1.x ∧ b = v1.y) →
      wolfAt (updateWolfAt
        (deleteSheepAt
          (recordDeath
            (updateWolfAt W v1.x v1.y
              (fun u => { u with huntingTarget := some t.id }))
            (sheepSnapshot t) Cause.hunting ("Hunted by wolf " ++ v1.id))
          t.x t.y)
        v1.x v1.y
        (fun u => { u with energy := u.energy + cfg.energyPerSheep, hunger := 0,
                           huntingTarget := none })) a b = wolfAt W a b) := by
  refine ⟨?_, ?_, ?_, ?_, ?_⟩
  · rw [sheepAt_updateWolfAt]
    refine sheepAt_deleteSheepAt_self _ t.x t.y ?_
    show (getCell (recordDeath _ _ _ _) t.x t.y).isSome = true
    rw [getCell_recordDeath]
    exact getCell_isSome_updateWolfAt W v1.x v1.y _ t.x t.y hts
  · rw [deathStats_updateWolfAt, deathStats_deleteSheepAt,
      recordDeath_huntingDeaths, deathStats_updateWolfAt]
  · obtain ⟨rec, hmem, hid, hcause, _⟩ := recordDeath_mem_recent
      (updateWolfAt W v1.x v1.y (fun u => { u with huntingTarget := some t.id }))
      (sheepSnapshot t) Cause.hunting ("Hunted by wolf " ++ v1.id)
    refine ⟨rec, ?_, hid, hcause⟩
    rw [deathStats_updateWolfAt, deathStats_deleteSheepAt]
    exact hmem
  · have hvC : isValidPosition (deleteSheepAt
        (recordDeath
          (updateWolfAt W v1.x v1.y
            (fun u => { u with huntingTarget := some t.id }))
          (sheepSnapshot t) Cause.hunting ("Hunted by wolf " ++ v1.id))
        t.x t.y) v1.x v1.y = true := by
      rw [isValidPosition_deleteSheepAt, isValidPosition_recordDeath,
        isValidPosition_updateWolfAt]
      exact hv
    rw [wolfAt_updateWolfAt_self _ v1.x v1.y _ hvC, wolfAt_deleteSheepAt,
      wolfAt_recordDeath, wolfAt_updateWolfAt_self W v1.x v1.y _ hv, hwat]
    rfl
  · intro a b he
    rw [wolfAt_updateWolfAt_ne _ v1.x v1.y _ a b he, wolfAt_deleteSheepAt,
      wolfAt_recordDeath, wolfAt_updateWolfAt_ne W v1.x v1.y _ a b he]

/-- C6: if the sole wolf enters a tick with hunger at or above the hunger
threshold, survives the cull, and the first sheep it finds within its hunting
radius is adjacent (squared distance ≤ 1), then after that one
`processWolvesBatch` tick the sheep's cell is emptied of its sheep, a
hunting-cause death record naming the sheep is pushed with the hunting-death
counter up by one, and the wolf ends with hunger 0 and energy exactly its
prior energy minus `energyPerStep` plus `energyPerSheep`. -/
theorem C6_wolf_adjacent_hunt (cfg : WolfCfg) (w : World) (rs : List ℚ)
    (v : Wolf) (t : Sheep) (rest : List Sheep)
    (hw : getWolfList w = [v])
    (hvAt : wolfAt w v.x v.y = some v)
    (halive : v.isAlive = true)
    (hhungry : v.hunger ≥ cfg.hungerThreshold)
    (hsurv : deathCheckWolf cfg (ageWolfFn cfg.energyPerStep v) = none)
    (hfind : findNearbySheep w v.x v.y cfg.huntingRadius = t :: rest)
    (hadj : (t.x - v.x) ^ 2 + (t.y - v.y) ^ 2 ≤ 1)
    (htpos : sheepAt w t.x t.y = some t) :
    sheepAt (processWolvesBatch cfg w rs).1 t.x t.y = none ∧
    (processWolvesBatch cfg w rs).1.deathStats.huntingDeaths =
      w.deathStats.huntingDeaths + 1 ∧
    (∃ rec ∈ (processWolvesBatch cfg w rs).1.deathStats.recentDeaths,
      rec.organismId = t.id ∧ rec.cause = Cause.hunting) ∧
    ∃ p : Int × Int, ∃ u : Wolf,
      wolfAt (processWolvesBatch cfg w rs).1 p.1 p.2 = some u ∧
      u.id = v.id ∧ u.hunger = 0 ∧
      u.energy = v.energy - cfg.energyPerStep + cfg.energyPerSheep := by
  have hvv : isValidPosition w v.x v.y = true := by
    unfold wolfAt at hvAt
    cases hg : getCell w v.x v.y with
    | none => rw [hg] at hvAt; exact absurd hvAt (by simp)
    | some c => exact getCell_valid w v.x v.y c hg
  obtain ⟨ct, hct, hcts⟩ := sheepAt_eq_some htpos
  have hctSome : (getCell w t.x t.y).isSome = true := by rw [hct]; rfl
  have hmain : processWolvesBatch cfg w rs =
      List.foldl (wolfMovementStep cfg)
        (processWolfHuntingBatch cfg (agingPassWolves cfg w [v])
          [ageWolfFn cfg.energyPerStep v], rs)
        [ageWolfFn cfg.energyPerStep v] := by
    unfold processWolvesBatch
    simp only []
    rw [hw]
    rw [if_neg (by simp : ¬(([v] : List Wolf).length = 0))]
    have hcull : cullWolves cfg (agingPassWolves cfg w [v])
        (List.map (ageWolfFn cfg.energyPerStep) [v]) =
        (agingPassWolves cfg w [v], [ageWolfFn cfg.energyPerStep v]) := by
      show cullWolves cfg (agingPassWolves cfg w [v])
        [ageWolfFn cfg.energyPerStep v] = _
      unfold cullWolves
      simp only [List.foldl]
      rw [show (ageWolfFn cfg.energyPerStep v).isAlive = v.isAlive from rfl,
        halive, hsurv]
      simp
    rw [hcull]
  have hbatch : processWolfHuntingBatch cfg (agingPassWolves cfg w [v])
      [ageWolfFn cfg.energyPerStep v] =
      huntStep cfg (agingPassWolves cfg w [v]) (ageWolfFn cfg.energyPerStep v) := by
    unfold processWolfHuntingBatch
    rw [List.filter_cons]
    rw [if_pos (by simp [ageWolfFn]; omega)]
    rfl
  have hW1eq : agingPassWolves cfg w [v] =
      updateWolfAt w v.x v.y (ageWolfFn cfg.energyPerStep) := rfl
  have hsheep1 : ∀ a b, sheepAt (agingPassWolves cfg w [v]) a b = sheepAt w a b := by
    intro a b
    rw [hW1eq]
    exact sheepAt_updateWolfAt w v.x v.y _ a b
  have hfind1 : findNearbySheep (agingPassWolves cfg w [v])
      (ageWolfFn cfg.energyPerStep v).x (ageWolfFn cfg.energyPerStep v).y
      cfg.huntingRadius = t :: rest := by
    rw [show (ageWolfFn cfg.energyPerStep v).x = v.x from rfl,
      show (ageWolfFn cfg.energyPerStep v).y = v.y from rfl,
      findNearbySheep_congr _ w v.x v.y cfg.huntingRadius hsheep1]
    exact hfind
  have hhunt := huntStep_adjacent cfg (agingPassWolves cfg w [v])
    (ageWolfFn cfg.energyPerStep v) t rest hfind1 hadj
  have hW1v : wolfAt (agingPassWolves cfg w [v])
      (ageWolfFn cfg.energyPerStep v).x (ageWolfFn cfg.energyPerStep v).y =
      some (ageWolfFn cfg.energyPerStep v) := by
    rw [show (ageWolfFn cfg.energyPerStep v).x = v.x from rfl,
      show (ageWolfFn cfg.energyPerStep v).y = v.y from rfl, hW1eq,
      wolfAt_updateWolfAt_self w v.x v.y _ hvv, hvAt]
    rfl
  have hW1val : isValidPosition (agingPassWolves cfg w [v])
      (ageWolfFn cfg.energyPerStep v).x (ageWolfFn cfg.energyPerStep v).y = true := by
    rw [show (ageWolfFn cfg.energyPerStep v).x = v.x from rfl,
      show (ageWolfFn cfg.energyPerStep v).y = v.y from rfl, hW1eq,
      isValidPosition_updateWolfAt]
    exact hvv
  have hW1ts : (getCell (agingPassWolves cfg w [v]) t.x t.y).isSome = true := by
    rw [hW1eq]
    exact getCell_isSome_updateWolfAt w v.x v.y _ t.x t.y hctSome
  obtain ⟨hgone, hcount, hmem, hwolfD, hframe⟩ :=
    huntChain_facts cfg (agingPassWolves cfg w [v]) (ageWolfFn cfg.energyPerStep v)
      t hW1val hW1ts hW1v
  have hres : processWolvesBatch cfg w rs =
      wolfMovementStep cfg
        (huntStep cfg (agingPassWolves cfg w [v]) (ageWolfFn cfg.energyPerStep v), rs)
        (ageWolfFn cfg.energyPerStep v) := by
    rw [hmain]
    simp only [List.foldl]
    rw [hbatch]
  rw [hhunt] at hres
  have huniqW := wolf_unique_of_singleton w v hw hvAt
  have huniqD : ∀ a b u2,
      wolfAt (huntStep cfg (agingPassWolves cfg w [v])
        (ageWolfFn cfg.energyPerStep v)) a b = some u2 →
      a = (ageWolfFn cfg.energyPerStep v).x ∧
      b = (ageWolfFn cfg.energyPerStep v).y := by
    rw [hhunt]
    intro a b u2 h2
    by_cases he : a = (ageWolfFn cfg.energyPerStep v).x ∧
        b = (ageWolfFn cfg.energyPerStep v).y
    · exact he
    · rw [hframe a b he, hW1eq,
        wolfAt_updateWolfAt_ne w v.x v.y (ageWolfFn cfg.energyPerStep) a b he] at h2
      obtain ⟨ha, hb, _⟩ := huniqW a b u2 h2
      exact absurd ⟨ha, hb⟩ he
  rw [hhunt] at huniqD
  refine ⟨?_, ?_, ?_, ?_⟩
  · rw [hres, wolfMovementStep_sheepAt]
    exact hgone
  · rw [hres]
    rw [wolfMovementStep_deathStats]
    have hdsW1 : (agingPassWolves cfg w [v]).deathStats = w.deathStats := by
      rw [hW1eq]
      exact deathStats_updateWolfAt w v.x v.y _
    exact hdsW1 ▸ hcount
  · obtain ⟨rec, hm, hi, hc⟩ := hmem
    refine ⟨rec, ?_, hi, hc⟩
    rw [hres, wolfMovementStep_deathStats]
    exact hm
  · rw [hres]
    obtain ⟨p, u2, h1, h2, h3, h4⟩ := wolfMovementStep_track cfg (_, rs)
      (ageWolfFn cfg.energyPerStep v) _ _ _ hwolfD huniqD rfl
    refine ⟨p, u2, h1, ?_, ?_, ?_⟩
    · rw [h2]; rfl
    · rw [h4]
    · rw [h3]; rfl

/-- Concrete run of the hunting claim: on the 3x1 world with the sole hungry
wolf (hunger 2 = threshold, energy 5) at (0,0) and a sheep at the adjacent
cell (1,0), one wolf tick removes the sheep, records a hunting death for it,
and leaves a wolf with hunger 0 and energy 5 - 1 + 3. -/
theorem C6_wolf_adjacent_hunt_witness :
    sheepAt (processWolvesBatch c6cfg c6world []).1 c6sheep.x c6sheep.y = none ∧
    (processWolvesBatch c6cfg c6world []).1.deathStats.huntingDeaths =
      c6world.deathStats.huntingDeaths + 1 ∧
    (∃ rec ∈ (processWolvesBatch c6cfg c6world []).1.deathStats.recentDeaths,
      rec.organismId = c6sheep.id ∧ rec.cause = Cause.hunting) ∧
    ∃ p : Int × Int, ∃ u : Wolf,
      wolfAt (processWolvesBatch c6cfg c6world []).1 p.1 p.2 = some u ∧
      u.id = c6wolf.id ∧ u.hunger = 0 ∧
      u.energy = c6wolf.energy - c6cfg.energyPerStep + c6cfg.energyPerSheep :=
  C6_wolf_adjacent_hunt c6cfg c6world [] c6wolf c6sheep []
    (by rfl) (by rfl) rfl (by decide)
    (by norm_num [deathCheckWolf, deathCheck, wolfMortal, ageWolfFn, c6cfg,
      c6wolf, sampleWolf])
    (by rfl) (by decide) (by rfl)

theorem recentAvg_gt_iff (hist : List HistRow) (f : HistRow → Nat) (c : Int) :
    recentAvg hist f > ((c : Int) : ℚ) ↔ avgGtB hist f c = true := by
  unfold recentAvg avgGtB
  simp only []
  by_cases h : (hist.drop (hist.length - 3)).length = 0
  · rw [if_pos h, if_pos h, decide_eq_true_eq]
    constructor
    · intro hx
      exact_mod_cast hx
    · intro hx
      exact_mod_cast hx
  · rw [if_neg h, if_neg h, decide_eq_true_eq]
    have hlen : (0 : ℚ) < ((hist.drop (hist.length - 3)).length : ℚ) := by
      exact_mod_cast Nat.pos_of_ne_zero h
    rw [gt_iff_lt, lt_div_iff hlen]
    have e1 : ((c * ((hist.drop (hist.length - 3)).length : Int) : Int) : ℚ) =
        (c : ℚ) * ((hist.drop (hist.length - 3)).length : ℚ) := by
      rw [Int.cast_mul, Int.cast_natCast]
    have e2 : ((((hist.drop (hist.length - 3)).map f).sum : Int) : ℚ) =
        (((hist.drop (hist.length - 3)).map f).sum : ℚ) := Int.cast_natCast _
    rw [← e1, ← e2, Int.cast_lt]

theorem recentAvg_lt_iff (hist : List HistRow) (f : HistRow → Nat) (c : Int) :
    recentAvg hist f < ((c : Int) : ℚ) ↔ avgLtB hist f c = true := by
  unfold recentAvg avgLtB
  simp only []
  by_cases h : (hist.drop (hist.length - 3)).length = 0
  · rw [if_pos h, if_pos h, decide_eq_true_eq]
    constructor
    · intro hx
      exact_mod_cast hx
    · intro hx
      exact_mod_cast hx
  · rw [if_neg h, if_neg h, decide_eq_true_eq]
    have hlen : (0 : ℚ) < ((hist.drop (hist.length - 3)).length : ℚ) := by
      exact_mod_cast Nat.pos_of_ne_zero h
    rw [div_lt_iff hlen]
    have e1 : ((c * ((hist.drop (hist.length - 3)).length : Int) : Int) : ℚ) =
        (c : ℚ) * ((hist.drop (hist.length - 3)).length : ℚ) := by
      rw [Int.cast_mul, Int.cast_natCast]
    have e2 : ((((hist.drop (hist.length - 3)).map f).sum : Int) : ℚ) =
        (((hist.drop (hist.length - 3)).map f).sum : ℚ) := Int.cast_natCast _
    rw [← e2, ← e1, Int.cast_lt]

theorem recentAvg_gt20 (hist : List HistRow) (f : HistRow → Nat) :
    recentAvg hist f > 20 ↔ avgGtB hist f 20 = true := by
  have h := recentAvg_gt_iff hist f 20
  norm_num at h
  exact h

theorem recentAvg_lt50 (hist : List HistRow) (f : HistRow → Nat) :
    recentAvg hist f < 50 ↔ avgLtB hist f 50 = true := by
  have h := recentAvg_lt_iff hist f 50
  norm_num at h
  exact h

theorem recentAvg_gt200 (hist : List HistRow) (f : HistRow → Nat) :
    recentAvg hist f > 200 ↔ avgGtB hist f 200 = true := by
  have h := recentAvg_gt_iff hist f 200
  norm_num at h
  exact h

theorem recentAvg_lt10 (hist : List HistRow) (f : HistRow → Nat) :
    recentAvg hist f < 10 ↔ avgLtB hist f 10 = true := by
  have h := recentAvg_lt_iff hist f 10
  norm_num at h
  exact h

theorem recentAvg_gt100 (hist : List HistRow) (f : HistRow → Nat) :
    recentAvg hist f > 100 ↔ avgGtB hist f 100 = true := by
  have h := recentAvg_gt_iff hist f 100
  norm_num at h
  exact h

theorem detectTrend_eq (recent : List Nat) : detectTrend recent = detectTrendZ recent := by
  unfold detectTrend detectTrendZ
  by_cases h3 : recent.length < 3
  · rw [if_pos h3, if_pos h3]
  · rw [if_neg h3, if_neg h3]
    simp only []
    by_cases h0 : (recent.take 2).sum = 0
    · rw [if_pos h0, h0]
      norm_num
    · rw [if_neg h0]
      have hpos : (0 : ℚ) < ((recent.take 2).sum : ℚ) := by
        exact_mod_cast Nat.pos_of_ne_zero h0
      have hb : ((recent.take 2).sum : ℚ) ≠ 0 := ne_of_gt hpos
      have hch : (((recent.drop (recent.length - 2)).sum : ℚ) / 2 -
            ((recent.take 2).sum : ℚ) / 2) / (((recent.take 2).sum : ℚ) / 2) =
          (((recent.drop (recent.length - 2)).sum : ℚ) - ((recent.take 2).sum : ℚ)) /
            ((recent.take 2).sum : ℚ) := by
        field_simp
      rw [hch]
      have hiff1 : (((recent.drop (recent.length - 2)).sum : ℚ) - ((recent.take 2).sum : ℚ)) /
            ((recent.take 2).sum : ℚ) > 15 / 100 ↔
          3 * ((recent.take 2).sum : Int) <
            20 * (((recent.drop (recent.length - 2)).sum : Int) - ((recent.take 2).sum : Int)) := by
        rw [gt_iff_lt, show (15 : ℚ) / 100 = 3 / 20 by norm_num,
          div_lt_div_iff (by norm_num) hpos]
        have e1 : ((3 * ((recent.take 2).sum : Int) : Int) : ℚ) =
            3 * ((recent.take 2).sum : ℚ) := by
          rw [Int.cast_mul, Int.cast_natCast, Int.cast_ofNat]
        have e2 : ((20 * (((recent.drop (recent.length - 2)).sum : Int) -
              ((recent.take 2).sum : Int)) : Int) : ℚ) =
            (((recent.drop (recent.length - 2)).sum : ℚ) - ((recent.take 2).sum : ℚ)) * 20 := by
          rw [Int.cast_mul, Int.cast_sub, Int.cast_natCast, Int.cast_natCast, Int.cast_ofNat]
          ring
        rw [← e1, ← e2, Int.cast_lt]
      have hiff2 : (((recent.drop (recent.length - 2)).sum : ℚ) - ((recent.take 2).sum : ℚ)) /
            ((recent.take 2).sum : ℚ) < -(15 / 100) ↔
          20 * (((recent.drop (recent.length - 2)).sum : Int) - ((recent.take 2).sum : Int)) <
            -(3 * ((recent.take 2).sum : Int)) := by
        rw [show -((15 : ℚ) / 100) = (-3) / 20 by norm_num, div_lt_div_iff hpos (by norm_num)]
        have e1 : ((20 * (((recent.drop (recent.length - 2)).sum : Int) -
              ((recent.take 2).sum : Int)) : Int) : ℚ) =
            (((recent.drop (recent.length - 2)).sum : ℚ) - ((recent.take 2).sum : ℚ)) * 20 := by
          rw [Int.cast_mul, Int.cast_sub, Int.cast_natCast, Int.cast_natCast, Int.cast_ofNat]
          ring
        have e2 : ((-(3 * ((recent.take 2).sum : Int)) : Int) : ℚ) =
            (-3) * ((recent.take 2).sum : ℚ) := by
          rw [Int.cast_neg, Int.cast_mul, Int.cast_natCast, Int.cast_ofNat]
          ring
        rw [← e1, ← e2, Int.cast_lt]
      rw [if_congr hiff1 rfl (if_congr hiff2 rfl rfl)]

theorem recordOscillationCycle_eq (a : Analyzer) (sp : Species3)
    (state : SpeciesTrendState) (currentPop step : Nat) (newTrend : Trend) :
    recordOscillationCycle a sp state currentPop step newTrend =
      recordOscillationCycleZ a sp state currentPop step newTrend := by
  unfold recordOscillationCycle recordOscillationCycleZ
  simp only [recentAvg_gt20, recentAvg_lt50, recentAvg_gt200, recentAvg_lt10,
    recentAvg_gt100]

theorem detectSpeciesOscillation_eq (a : Analyzer) (sp : Species3)
    (currentPop step : Nat) :
    detectSpeciesOscillation a sp currentPop step =
      detectSpeciesOscillationZ a sp currentPop step := by
  unfold detectSpeciesOscillation detectSpeciesOscillationZ
  simp only [detectTrend_eq, recordOscillationCycle_eq]

theorem detectOscillations_eq (a : Analyzer) (step g s w : Nat) :
    detectOscillations a step g s w = detectOscillationsZ a step g s w := by
  unfold detectOscillations detectOscillationsZ
  simp only [detectSpeciesOscillation_eq]

theorem recordPopulation_eq (a : Analyzer) (step g s w : Nat) :
    recordPopulation a step g s w = recordPopulationZ a step g s w := by
  unfold recordPopulation recordPopulationZ
  simp only [detectOscillations_eq]

theorem c9feed_eq (sp : Species3) : ∀ n, c9feed sp n = c9feedZ sp n
  | 0 => rfl
  | Nat.succ n => by
    rw [c9feed, c9feedZ, c9feed_eq sp n, recordPopulation_eq]



set_option maxRecDepth 4000 in
/-- C9: feeding the oscillation detector the synthetic population series
that rises by 100 per tick for 20 ticks and then falls by 100 per tick for
20 ticks (amplitude 1500, far above the cycle minimum of 5), with the other
two species held constant, records exactly one oscillation cycle whichever
species varies, and that cycle is a `growth_to_decline` cycle for that
species. -/
theorem C9_oscillation_one_cycle :
    ∀ sp : Species3, ∃ c : OscCycle,
      (c9feed sp 40).oscillationCycles = [c] ∧
      c.species = speciesName sp ∧
      c.cycleType = CycleType.growth_to_decline := by
  intro sp
  refine ⟨c9cyc sp, ?_, rfl, rfl⟩
  rw [c9feed_eq]
  cases sp <;> decide

end Eco
